import Mathlib

/-!
Verification of the LNG cargo diversion decision engine.

Shallow embedding of the engine package (`engine/netback.py`, `engine/decision.py`,
`engine/validation.py`, `engine/run.py`, `engine/risk.py`, `engine/backtest.py`).
Python floats are modelled as exact rationals (`ℚ`); all the verified identities are
exact-arithmetic identities, floating-point rounding aside.  Pandas DataFrames used
as reference tables are modelled as lists of records; a filtered `.values[0]` /
`.iloc[0]` lookup is the first matching element (`List.find?`).  Python functions
that can raise are modelled as `Option` / `Except` valued functions.
-/

/-! ## Data model (`engine/netback.py`) -/

/-- Row of the route reference table. -/
structure Route where
  load_port : String
  discharge_port : String
  distance_nm : ℚ
deriving DecidableEq

/-- Row of the vessel reference table. -/
structure Vessel where
  vessel_class : String
  cargo_capacity_m3 : ℚ
  laden_speed_kn : ℚ
  ballast_speed_kn : ℚ
  boil_off_pct_per_day : ℚ
  fuel_consumption_tpd_laden : ℚ
  fuel_consumption_tpd_ballast : ℚ
deriving DecidableEq

/-- The carbon-parameter map; only the two CO2 factors are read by the engine. -/
structure CarbonParams where
  CO2_factor_VLSFO_tCO2_per_t_fuel : ℚ
  CO2_factor_LNG_tCO2_per_t_fuel : ℚ
deriving DecidableEq

/-- Constant `LNG_DENSITY_T_PER_M3 = 0.45` from `netback.py`. -/
def LNG_DENSITY_T_PER_M3 : ℚ := 0.45

/-- Constant `ENERGY_CONTENT_MMBTU_PER_T = 52` from `netback.py`. -/
def ENERGY_CONTENT_MMBTU_PER_T : ℚ := 52

/-- Constant `HOURS_PER_DAY = 24` from `netback.py`. -/
def HOURS_PER_DAY : ℚ := 24

/-- `VoyageDetails` dataclass. -/
structure VoyageDetails where
  distance_nm : ℚ
  voyage_days : ℚ
  boil_off_m3 : ℚ
  delivered_cargo_m3 : ℚ
  delivered_energy_mmbtu : ℚ
  fuel_consumed_tonnes : ℚ
  fuel_cost_usd : ℚ
  time_charter_cost_usd : ℚ
  carbon_cost_usd : ℚ
  total_voyage_cost_usd : ℚ
deriving DecidableEq

/-- `NetbackResult` dataclass. -/
structure NetbackResult where
  destination : String
  price_usd_mmbtu : ℚ
  delivered_energy_mmbtu : ℚ
  revenue_usd : ℚ
  voyage_cost_usd : ℚ
  carbon_cost_usd : ℚ
  netback_usd : ℚ
  voyage_details : VoyageDetails
deriving DecidableEq

/-- `NetbackCalculator` (its constructor fields). -/
structure NetbackCalculator where
  routes : List Route
  vessels : List Vessel
  carbon_params : CarbonParams

/-- The route lookup `self.routes[(load_port == .) & (discharge_port == .)]`,
first matching row; `none` models the `ValueError` raised on an empty filter. -/
def findRoute (routes : List Route) (load_port discharge_port : String) : Option Route :=
  routes.find? (fun r => r.load_port == load_port && r.discharge_port == discharge_port)

/-- The vessel lookup `self.vessels[vessel_class == .]`, first matching row. -/
def findVessel (vessels : List Vessel) (vessel_class : String) : Option Vessel :=
  vessels.find? (fun v => v.vessel_class == vessel_class)

/-- The arithmetic body of `NetbackCalculator.calculate_voyage`, once the route
and vessel rows have been looked up (lines 92–133 of `netback.py`). -/
def voyageCore (cp : CarbonParams) (route : Route) (vessel : Vessel)
    (cargo_capacity_m3 freight_rate_usd_day fuel_price_usd_t eua_price_usd_t : ℚ)
    (fuel_type : String) : VoyageDetails :=
  let distance_nm := route.distance_nm
  let voyage_days := distance_nm / (vessel.laden_speed_kn * HOURS_PER_DAY)
  let boil_off_m3 := cargo_capacity_m3 * (vessel.boil_off_pct_per_day / 100) * voyage_days
  let delivered_cargo_m3 := cargo_capacity_m3 - boil_off_m3
  let delivered_cargo_tonnes := delivered_cargo_m3 * LNG_DENSITY_T_PER_M3
  let delivered_energy_mmbtu := delivered_cargo_tonnes * ENERGY_CONTENT_MMBTU_PER_T
  let fuel_consumed_tonnes := vessel.fuel_consumption_tpd_laden * voyage_days
  let fuel_cost_usd := fuel_consumed_tonnes * fuel_price_usd_t
  let time_charter_cost_usd := freight_rate_usd_day * voyage_days
  let co2_factor := if fuel_type == "VLSFO" then
      cp.CO2_factor_VLSFO_tCO2_per_t_fuel
    else
      cp.CO2_factor_LNG_tCO2_per_t_fuel
  let carbon_emissions_tco2 := fuel_consumed_tonnes * co2_factor
  let carbon_cost_usd := carbon_emissions_tco2 * eua_price_usd_t
  let total_voyage_cost_usd := fuel_cost_usd + time_charter_cost_usd + carbon_cost_usd
  { distance_nm := distance_nm
    voyage_days := voyage_days
    boil_off_m3 := boil_off_m3
    delivered_cargo_m3 := delivered_cargo_m3
    delivered_energy_mmbtu := delivered_energy_mmbtu
    fuel_consumed_tonnes := fuel_consumed_tonnes
    fuel_cost_usd := fuel_cost_usd
    time_charter_cost_usd := time_charter_cost_usd
    carbon_cost_usd := carbon_cost_usd
    total_voyage_cost_usd := total_voyage_cost_usd }

/-- `NetbackCalculator.calculate_voyage`.  Returns `none` where the Python raises:
missing route, missing vessel class, or a zero divisor `laden_speed_kn * 24`
(Python's `ZeroDivisionError`). -/
def NetbackCalculator.calculate_voyage (c : NetbackCalculator)
    (load_port discharge_port vessel_class : String)
    (cargo_capacity_m3 freight_rate_usd_day fuel_price_usd_t eua_price_usd_t : ℚ)
    (fuel_type : String := "VLSFO") : Option VoyageDetails :=
  match findRoute c.routes load_port discharge_port with
  | none => none
  | some route =>
    match findVessel c.vessels vessel_class with
    | none => none
    | some vessel =>
      if vessel.laden_speed_kn * HOURS_PER_DAY = 0 then none else
      some (voyageCore c.carbon_params route vessel cargo_capacity_m3
        freight_rate_usd_day fuel_price_usd_t eua_price_usd_t fuel_type)

/-- Reduction of `calculate_voyage` when both lookups succeed and the speed is
non-zero. -/
theorem calculate_voyage_some (c : NetbackCalculator)
    (lp dp vc ft : String) (cap fr fp eua : ℚ) (route : Route) (vessel : Vessel)
    (hr : findRoute c.routes lp dp = some route)
    (hv : findVessel c.vessels vc = some vessel)
    (hne : ¬ (vessel.laden_speed_kn * HOURS_PER_DAY = 0)) :
    c.calculate_voyage lp dp vc cap fr fp eua ft
      = some (voyageCore c.carbon_params route vessel cap fr fp eua ft) := by
  simp only [NetbackCalculator.calculate_voyage, hr, hv, if_neg hne]

/-- `NetbackCalculator.calculate_netback`. -/
def NetbackCalculator.calculate_netback (_c : NetbackCalculator)
    (destination : String) (destination_price_usd_mmbtu : ℚ)
    (voyage_details : VoyageDetails) : NetbackResult :=
  let revenue_usd := destination_price_usd_mmbtu * voyage_details.delivered_energy_mmbtu
  let netback_usd := revenue_usd - voyage_details.total_voyage_cost_usd
  { destination := destination
    price_usd_mmbtu := destination_price_usd_mmbtu
    delivered_energy_mmbtu := voyage_details.delivered_energy_mmbtu
    revenue_usd := revenue_usd
    voyage_cost_usd := voyage_details.total_voyage_cost_usd - voyage_details.carbon_cost_usd
    carbon_cost_usd := voyage_details.carbon_cost_usd
    netback_usd := netback_usd
    voyage_details := voyage_details }

/-- `NetbackCalculator.compare_netbacks`: Europe leg then Asia leg; any raised
error (missing route/vessel) propagates as `none`. -/
def NetbackCalculator.compare_netbacks (c : NetbackCalculator)
    (load_port europe_port asia_port vessel_class : String)
    (cargo_capacity_m3 ttf_price jkm_price freight_rate_usd_day
     fuel_price_usd_t eua_price_usd_t : ℚ) : Option (NetbackResult × NetbackResult) :=
  match c.calculate_voyage load_port europe_port vessel_class cargo_capacity_m3
      freight_rate_usd_day fuel_price_usd_t eua_price_usd_t with
  | none => none
  | some europe_voyage =>
    match c.calculate_voyage load_port asia_port vessel_class cargo_capacity_m3
        freight_rate_usd_day fuel_price_usd_t eua_price_usd_t with
    | none => none
    | some asia_voyage =>
      some (c.calculate_netback "Europe" ttf_price europe_voyage,
            c.calculate_netback "Asia" jkm_price asia_voyage)

/-! ## Decision engine (`engine/decision.py`) -/

/-- One entry of a trade ticket's `hedge_legs` list. -/
structure TicketLeg where
  leg : String
  instrument : String
  lots : ℤ
deriving DecidableEq

/-- `TradeTicket` dataclass; dates are modelled as integers. -/
structure TradeTicket where
  timestamp : ℤ
  decision : String
  delta_netback_raw_usd : ℚ
  delta_netback_adj_usd : ℚ
  decision_buffer_usd : ℚ
  hedge_legs : Option (List TicketLeg)
  jkm_lots : Option ℤ
  ttf_lots : Option ℤ
  hedge_energy_mmbtu : Option ℚ
  netback_europe_usd : Option ℚ
  netback_asia_usd : Option ℚ
deriving DecidableEq

/-- `DecisionResult` dataclass (the class-based engine's result). -/
structure DecisionResult where
  date : ℤ
  europe_netback : NetbackResult
  asia_netback : NetbackResult
  delta_netback_raw_usd : ℚ
  delta_netback_adj_usd : ℚ
  decision : String
  trade_ticket : TradeTicket
  basis_adjustment_pct : ℚ
  operational_risk_buffer_usd : ℚ
  decision_buffer_usd : ℚ
deriving DecidableEq

/-- `DecisionEngine` (its constructor fields). -/
structure DecisionEngine where
  decision_buffer_usd : ℚ
  operational_risk_buffer_usd : ℚ
  basis_adjustment_pct : ℚ
  coverage_pct : ℚ
  jkm_lot_mmbtu : ℚ
  ttf_lot_mmbtu : ℚ

/-- The ticket built by `_create_divert_ticket` once both lot-size divisions
have succeeded. -/
def divertTicketOf (e : DecisionEngine) (date : ℤ)
    (delta_netback_raw delta_netback_adj : ℚ)
    (europe_netback asia_netback : NetbackResult) : TradeTicket :=
  let delivered_energy := asia_netback.delivered_energy_mmbtu
  let hedge_energy := delivered_energy * e.coverage_pct
  let jkm_lots := ⌊hedge_energy / e.jkm_lot_mmbtu⌋
  let ttf_lots := ⌊hedge_energy / e.ttf_lot_mmbtu⌋
  { timestamp := date
    decision := "DIVERT"
    delta_netback_raw_usd := delta_netback_raw
    delta_netback_adj_usd := delta_netback_adj
    decision_buffer_usd := e.decision_buffer_usd
    hedge_legs := some [
      { leg := "LONG", instrument := "JKM", lots := jkm_lots },
      { leg := "SHORT", instrument := "TTF", lots := ttf_lots }]
    jkm_lots := some jkm_lots
    ttf_lots := some ttf_lots
    hedge_energy_mmbtu := some hedge_energy
    netback_europe_usd := some europe_netback.netback_usd
    netback_asia_usd := some asia_netback.netback_usd }

/-- `DecisionEngine._create_divert_ticket` (leading underscore dropped).
`math.floor(hedge_energy / lot)` raises `ZeroDivisionError` when a lot size is
zero — the JKM division on line 145 runs first, then the TTF one on line 146 —
so the function is `Option` valued and returns `none` exactly there. -/
def DecisionEngine.create_divert_ticket (e : DecisionEngine) (date : ℤ)
    (delta_netback_raw delta_netback_adj : ℚ)
    (europe_netback asia_netback : NetbackResult) : Option TradeTicket :=
  if e.jkm_lot_mmbtu = 0 then none
  else if e.ttf_lot_mmbtu = 0 then none
  else some (divertTicketOf e date delta_netback_raw delta_netback_adj
    europe_netback asia_netback)

/-- Reduction of `create_divert_ticket` at non-zero lot sizes. -/
theorem create_divert_ticket_some (e : DecisionEngine) (date : ℤ)
    (delta_netback_raw delta_netback_adj : ℚ)
    (europe_netback asia_netback : NetbackResult)
    (hj : e.jkm_lot_mmbtu ≠ 0) (ht : e.ttf_lot_mmbtu ≠ 0) :
    e.create_divert_ticket date delta_netback_raw delta_netback_adj
        europe_netback asia_netback
      = some (divertTicketOf e date delta_netback_raw delta_netback_adj
          europe_netback asia_netback) := by
  simp only [DecisionEngine.create_divert_ticket, if_neg hj, if_neg ht]

/-- `DecisionEngine._create_keep_ticket` (leading underscore dropped). -/
def DecisionEngine.create_keep_ticket (e : DecisionEngine) (date : ℤ)
    (delta_netback_raw delta_netback_adj : ℚ)
    (europe_netback asia_netback : NetbackResult) : TradeTicket :=
  { timestamp := date
    decision := "KEEP"
    delta_netback_raw_usd := delta_netback_raw
    delta_netback_adj_usd := delta_netback_adj
    decision_buffer_usd := e.decision_buffer_usd
    hedge_legs := none
    jkm_lots := none
    ttf_lots := none
    hedge_energy_mmbtu := none
    netback_europe_usd := some europe_netback.netback_usd
    netback_asia_usd := some asia_netback.netback_usd }

/-- `DecisionEngine.evaluate`.  On the DIVERT branch the ticket construction
can raise `ZeroDivisionError` (zero lot size), so `evaluate` itself is
`Option` valued: `none` models the raised error, under which no
`DecisionResult` is returned. -/
def DecisionEngine.evaluate (e : DecisionEngine) (date : ℤ)
    (europe_netback asia_netback : NetbackResult) : Option DecisionResult :=
  let delta_netback_raw := asia_netback.netback_usd - europe_netback.netback_usd
  let delta_netback_adj :=
    delta_netback_raw * (1 - e.basis_adjustment_pct) - e.operational_risk_buffer_usd
  if delta_netback_adj ≥ e.decision_buffer_usd then
    match e.create_divert_ticket date delta_netback_raw delta_netback_adj
        europe_netback asia_netback with
    | none => none
    | some trade_ticket =>
      some
        { date := date
          europe_netback := europe_netback
          asia_netback := asia_netback
          delta_netback_raw_usd := delta_netback_raw
          delta_netback_adj_usd := delta_netback_adj
          decision := "DIVERT"
          trade_ticket := trade_ticket
          basis_adjustment_pct := e.basis_adjustment_pct
          operational_risk_buffer_usd := e.operational_risk_buffer_usd
          decision_buffer_usd := e.decision_buffer_usd }
  else
    some
      { date := date
        europe_netback := europe_netback
        asia_netback := asia_netback
        delta_netback_raw_usd := delta_netback_raw
        delta_netback_adj_usd := delta_netback_adj
        decision := "KEEP"
        trade_ticket := e.create_keep_ticket date delta_netback_raw delta_netback_adj
          europe_netback asia_netback
        basis_adjustment_pct := e.basis_adjustment_pct
        operational_risk_buffer_usd := e.operational_risk_buffer_usd
        decision_buffer_usd := e.decision_buffer_usd }

/-- A netback result whose only relevant fields are the delivered energy and
the netback value; used to instantiate theorems at concrete inputs. -/
def mkNB (energy netback : ℚ) : NetbackResult :=
  { destination := "X", price_usd_mmbtu := 0, delivered_energy_mmbtu := energy,
    revenue_usd := 0, voyage_cost_usd := 0, carbon_cost_usd := 0,
    netback_usd := netback,
    voyage_details := { distance_nm := 0, voyage_days := 0, boil_off_m3 := 0,
                        delivered_cargo_m3 := 0, delivered_energy_mmbtu := energy,
                        fuel_consumed_tonnes := 0, fuel_cost_usd := 0,
                        time_charter_cost_usd := 0, carbon_cost_usd := 0,
                        total_voyage_cost_usd := 0 } }

/-- An engine configuration with the standard positive lot sizes. -/
def wEngine : DecisionEngine :=
  { decision_buffer_usd := 20, operational_risk_buffer_usd := 10,
    basis_adjustment_pct := 0.05, coverage_pct := 0.8,
    jkm_lot_mmbtu := 10000, ttf_lot_mmbtu := 10000 }

/-- An engine configuration with a zero JKM lot size. -/
def cexEngineZeroLot : DecisionEngine :=
  { decision_buffer_usd := 20, operational_risk_buffer_usd := 10,
    basis_adjustment_pct := 0.05, coverage_pct := 0.8,
    jkm_lot_mmbtu := 0, ttf_lot_mmbtu := 10000 }

/-! ## Claim C1 -/

/-- C1 counterexample: with a zero JKM lot size and a diverting netback pair
(adjusted delta 9395 ≥ buffer 20), `DecisionEngine.evaluate` does not return
a `DecisionResult`: the hedge sizing on the DIVERT branch divides by the lot
size (`decision.py` line 145) and raises `ZeroDivisionError`, so the
"for every engine configuration, evaluate returns ..." claim fails. -/
theorem evaluate_zero_lot_cex :
    cexEngineZeroLot.jkm_lot_mmbtu = 0 ∧
    cexEngineZeroLot.decision_buffer_usd
      ≤ ((mkNB 0 10000).netback_usd - (mkNB 0 100).netback_usd)
          * (1 - cexEngineZeroLot.basis_adjustment_pct)
          - cexEngineZeroLot.operational_risk_buffer_usd ∧
    cexEngineZeroLot.evaluate 0 (mkNB 0 100) (mkNB 0 10000) = none := by
  refine ⟨rfl, by norm_num [cexEngineZeroLot, mkNB], ?_⟩
  have h : ((mkNB 0 10000).netback_usd - (mkNB 0 100).netback_usd)
      * (1 - cexEngineZeroLot.basis_adjustment_pct)
      - cexEngineZeroLot.operational_risk_buffer_usd
      ≥ cexEngineZeroLot.decision_buffer_usd := by
    norm_num [cexEngineZeroLot, mkNB]
  simp only [DecisionEngine.evaluate, if_pos h]
  simp [DecisionEngine.create_divert_ticket, cexEngineZeroLot]

/-- C1 amended: for every pair of netback results and every engine
configuration whose lot sizes are non-zero — elsewhere the DIVERT branch
raises `ZeroDivisionError` instead of returning — `DecisionEngine.evaluate`
returns a `DecisionResult` with `delta_netback_raw_usd` = Asia netback − Europe
netback, `delta_netback_adj_usd` = delta_raw · (1 − basis haircut) − ops
buffer, and decision `"DIVERT"` iff the adjusted delta is `≥` the decision
buffer (inclusive boundary), else `"KEEP"`. -/
theorem evaluate_decision_rule (e : DecisionEngine) (date : ℤ)
    (europe_netback asia_netback : NetbackResult)
    (hj : e.jkm_lot_mmbtu ≠ 0) (ht : e.ttf_lot_mmbtu ≠ 0) :
    e.evaluate date europe_netback asia_netback ≠ none ∧
    ∀ r, e.evaluate date europe_netback asia_netback = some r →
      r.delta_netback_raw_usd
          = asia_netback.netback_usd - europe_netback.netback_usd ∧
      r.delta_netback_adj_usd
          = (asia_netback.netback_usd - europe_netback.netback_usd)
              * (1 - e.basis_adjustment_pct) - e.operational_risk_buffer_usd ∧
      (r.decision = "DIVERT"
          ↔ e.decision_buffer_usd ≤ r.delta_netback_adj_usd) ∧
      (r.decision = "KEEP"
          ↔ r.delta_netback_adj_usd < e.decision_buffer_usd) := by
  constructor
  · by_cases h : (asia_netback.netback_usd - europe_netback.netback_usd)
        * (1 - e.basis_adjustment_pct) - e.operational_risk_buffer_usd
        ≥ e.decision_buffer_usd
    · simp [DecisionEngine.evaluate, if_pos h,
        create_divert_ticket_some e date _ _ _ _ hj ht]
    · simp [DecisionEngine.evaluate, if_neg h]
  · intro r hr
    by_cases h : (asia_netback.netback_usd - europe_netback.netback_usd)
        * (1 - e.basis_adjustment_pct) - e.operational_risk_buffer_usd
        ≥ e.decision_buffer_usd
    · simp only [DecisionEngine.evaluate, if_pos h,
        create_divert_ticket_some e date _ _ _ _ hj ht,
        Option.some.injEq] at hr
      subst hr
      have h' : ¬ ((asia_netback.netback_usd - europe_netback.netback_usd)
          * (1 - e.basis_adjustment_pct) - e.operational_risk_buffer_usd
          < e.decision_buffer_usd) := not_lt.mpr h
      simp [h, h']
    · simp only [DecisionEngine.evaluate, if_neg h, Option.some.injEq] at hr
      subst hr
      have hlt := lt_of_not_ge h
      simp [hlt, not_le.mpr hlt]

/-- C1 amended, witness at a concrete configuration with lot size 10000. -/
theorem evaluate_decision_rule_witness :
    wEngine.jkm_lot_mmbtu ≠ 0 ∧ wEngine.ttf_lot_mmbtu ≠ 0 ∧
    (wEngine.evaluate 0 (mkNB 0 100) (mkNB 0 200) ≠ none ∧
     ∀ r, wEngine.evaluate 0 (mkNB 0 100) (mkNB 0 200) = some r →
       r.delta_netback_raw_usd
           = (mkNB 0 200).netback_usd - (mkNB 0 100).netback_usd ∧
       r.delta_netback_adj_usd
           = ((mkNB 0 200).netback_usd - (mkNB 0 100).netback_usd)
               * (1 - wEngine.basis_adjustment_pct)
               - wEngine.operational_risk_buffer_usd ∧
       (r.decision = "DIVERT"
           ↔ wEngine.decision_buffer_usd ≤ r.delta_netback_adj_usd) ∧
       (r.decision = "KEEP"
           ↔ r.delta_netback_adj_usd < wEngine.decision_buffer_usd)) :=
  ⟨by norm_num [wEngine], by norm_num [wEngine],
   evaluate_decision_rule wEngine 0 (mkNB 0 100) (mkNB 0 200)
     (by norm_num [wEngine]) (by norm_num [wEngine])⟩

/-! ## Concrete reference data for witnesses and counterexamples -/

/-- A route with a long distance relative to the vessel speed below. -/
def cexRoute : Route := { load_port := "L", discharge_port := "D", distance_nm := 240 }

/-- A zero-distance route (allowed by the data invariant `distance_nm ≥ 0`). -/
def cexRouteZero : Route := { load_port := "L", discharge_port := "Z", distance_nm := 0 }

def cexRoutes : List Route := [cexRoute, cexRouteZero]

/-- A slow vessel with a high boil-off rate, satisfying all stated data
invariants (`laden_speed_kn > 0`, `boil_off_pct_per_day ∈ [0, 100)`). -/
def cexVessel : Vessel :=
  { vessel_class := "V", cargo_capacity_m3 := 174000, laden_speed_kn := 1,
    ballast_speed_kn := 1, boil_off_pct_per_day := 50,
    fuel_consumption_tpd_laden := 2, fuel_consumption_tpd_ballast := 2 }

def cexVessels : List Vessel := [cexVessel]

def cexCalc : NetbackCalculator :=
  { routes := cexRoutes, vessels := cexVessels,
    carbon_params := { CO2_factor_VLSFO_tCO2_per_t_fuel := 3,
                       CO2_factor_LNG_tCO2_per_t_fuel := 3 } }

/-! ## Claim C2 -/

/-- C2 counterexample: with inputs satisfying every stated data invariant
(`distance_nm ≥ 0`, `boil_off_pct_per_day ∈ [0,100)`, `cargo_capacity_m3 > 0`,
`laden_speed_kn > 0`), `calculate_voyage` returns a delivered cargo of −400 m³
on the 240 nm route (violating `delivered_cargo_m3 ≥ 0`) and a delivered cargo
equal to the full capacity 100 m³ on the zero-distance route (violating the
strict bound `cargo_capacity_m3 > delivered_cargo_m3`). -/
theorem calculate_voyage_invariant_cex :
    (0 : ℚ) ≤ cexRoute.distance_nm ∧ (0 : ℚ) ≤ cexRouteZero.distance_nm ∧
    (0 : ℚ) ≤ cexVessel.boil_off_pct_per_day ∧ cexVessel.boil_off_pct_per_day < 100 ∧
    (0 : ℚ) < 100 ∧ (0 : ℚ) < cexVessel.laden_speed_kn ∧
    (cexCalc.calculate_voyage "L" "D" "V" 100 0 0 0 "VLSFO").map
        (fun v => v.delivered_cargo_m3) = some (-400) ∧
    (cexCalc.calculate_voyage "L" "Z" "V" 100 0 0 0 "VLSFO").map
        (fun v => v.delivered_cargo_m3) = some 100 := by
  refine ⟨by norm_num [cexRoute], by norm_num [cexRouteZero], by norm_num [cexVessel],
    by norm_num [cexVessel], by norm_num, by norm_num [cexVessel], ?_, ?_⟩
  · rw [calculate_voyage_some cexCalc "L" "D" "V" "VLSFO" 100 0 0 0 cexRoute cexVessel
      rfl rfl (by norm_num [cexVessel, HOURS_PER_DAY])]
    simp [voyageCore, cexRoute, cexVessel, HOURS_PER_DAY]
    norm_num
  · rw [calculate_voyage_some cexCalc "L" "Z" "V" "VLSFO" 100 0 0 0 cexRouteZero cexVessel
      rfl rfl (by norm_num [cexVessel, HOURS_PER_DAY])]
    simp [voyageCore, cexRouteZero, cexVessel, HOURS_PER_DAY]

/-- C2 amended: under the stated data invariants `calculate_voyage` succeeds and
its delivered cargo is at most the capacity (strictly below it whenever both the
distance and the boil-off rate are positive), and is non-negative exactly when
the total boil-off fraction `boil_off_pct/100 · voyage_days` is at most 1 — it
is negative, not clamped, for sufficiently slow/long voyages. -/
theorem calculate_voyage_delivered_bounds (c : NetbackCalculator)
    (lp dp vc ft : String) (cap fr fp eua : ℚ) (route : Route) (vessel : Vessel)
    (hr : findRoute c.routes lp dp = some route)
    (hv : findVessel c.vessels vc = some vessel)
    (hd : 0 ≤ route.distance_nm)
    (hb0 : 0 ≤ vessel.boil_off_pct_per_day)
    (hb1 : vessel.boil_off_pct_per_day < 100)
    (hcap : 0 < cap)
    (hsp : 0 < vessel.laden_speed_kn) :
    ∃ v, c.calculate_voyage lp dp vc cap fr fp eua ft = some v ∧
      v.delivered_cargo_m3 ≤ cap ∧
      (0 < route.distance_nm → 0 < vessel.boil_off_pct_per_day →
        v.delivered_cargo_m3 < cap) ∧
      (0 ≤ v.delivered_cargo_m3 ↔
        vessel.boil_off_pct_per_day / 100 * v.voyage_days ≤ 1) := by
  have hsp24 : (0 : ℚ) < vessel.laden_speed_kn * HOURS_PER_DAY := by
    have h24 : (0 : ℚ) < HOURS_PER_DAY := by norm_num [HOURS_PER_DAY]
    exact mul_pos hsp h24
  have hne : ¬ (vessel.laden_speed_kn * HOURS_PER_DAY = 0) := ne_of_gt hsp24
  have hdays : 0 ≤ route.distance_nm / (vessel.laden_speed_kn * HOURS_PER_DAY) :=
    div_nonneg hd hsp24.le
  refine ⟨_, calculate_voyage_some c lp dp vc ft cap fr fp eua route vessel hr hv hne,
    ?_, ?_, ?_⟩
  · have h0 : 0 ≤ cap * (vessel.boil_off_pct_per_day / 100)
        * (route.distance_nm / (vessel.laden_speed_kn * HOURS_PER_DAY)) :=
      mul_nonneg (mul_nonneg hcap.le (by positivity)) hdays
    simp only [voyageCore]
    linarith
  · intro hdp hbp
    have hdayp : 0 < route.distance_nm / (vessel.laden_speed_kn * HOURS_PER_DAY) :=
      div_pos hdp hsp24
    have h0 : 0 < cap * (vessel.boil_off_pct_per_day / 100)
        * (route.distance_nm / (vessel.laden_speed_kn * HOURS_PER_DAY)) :=
      mul_pos (mul_pos hcap (by positivity)) hdayp
    simp only [voyageCore]
    linarith
  · simp only [voyageCore]
    constructor
    · intro h0
      have hle : cap * (vessel.boil_off_pct_per_day / 100
          * (route.distance_nm / (vessel.laden_speed_kn * HOURS_PER_DAY))) ≤ cap := by
        nlinarith
      exact (mul_le_iff_le_one_right hcap).mp hle
    · intro h1
      have := (mul_le_iff_le_one_right hcap).mpr h1
      nlinarith

/-- C2 amended, witness at the concrete slow-vessel data. -/
theorem calculate_voyage_delivered_bounds_witness :
    (findRoute cexCalc.routes "L" "D" = some cexRoute) ∧
    (findVessel cexCalc.vessels "V" = some cexVessel) ∧
    (∃ v, cexCalc.calculate_voyage "L" "D" "V" 100 0 0 0 "VLSFO" = some v ∧
      v.delivered_cargo_m3 ≤ 100 ∧
      (0 < cexRoute.distance_nm → 0 < cexVessel.boil_off_pct_per_day →
        v.delivered_cargo_m3 < 100) ∧
      (0 ≤ v.delivered_cargo_m3 ↔
        cexVessel.boil_off_pct_per_day / 100 * v.voyage_days ≤ 1)) :=
  ⟨rfl, rfl,
    calculate_voyage_delivered_bounds cexCalc "L" "D" "V" "VLSFO" 100 0 0 0
      cexRoute cexVessel rfl rfl (by norm_num [cexRoute]) (by norm_num [cexVessel])
      (by norm_num [cexVessel]) (by norm_num) (by norm_num [cexVessel])⟩

/-! ## Claim C3 -/

/-- C3: whenever the route and vessel lookups succeed (and the vessel speed is
non-zero, as in all reference data), `calculate_voyage` returns normally and
passes the boil-off arithmetic through unclamped:
`boil_off_m3 = capacity · (boil_off_pct/100) · voyage_days`,
`delivered_cargo_m3 = capacity − boil_off_m3` exactly (negative values allowed),
and `delivered_energy_mmbtu = delivered_cargo_m3 · 0.45 · 52`. -/
theorem calculate_voyage_passthrough (c : NetbackCalculator)
    (lp dp vc ft : String) (cap fr fp eua : ℚ) (route : Route) (vessel : Vessel)
    (hr : findRoute c.routes lp dp = some route)
    (hv : findVessel c.vessels vc = some vessel)
    (hsp : vessel.laden_speed_kn ≠ 0) :
    ∃ v, c.calculate_voyage lp dp vc cap fr fp eua ft = some v ∧
      v.boil_off_m3 = cap * (vessel.boil_off_pct_per_day / 100) * v.voyage_days ∧
      v.delivered_cargo_m3 = cap - v.boil_off_m3 ∧
      v.delivered_energy_mmbtu = v.delivered_cargo_m3 * 0.45 * 52 := by
  have hne : ¬ (vessel.laden_speed_kn * HOURS_PER_DAY = 0) := by
    intro h
    rcases mul_eq_zero.mp h with h' | h'
    · exact hsp h'
    · norm_num [HOURS_PER_DAY] at h'
  refine ⟨_, calculate_voyage_some c lp dp vc ft cap fr fp eua route vessel hr hv hne,
    ?_, ?_, ?_⟩ <;>
    simp [voyageCore, LNG_DENSITY_T_PER_M3, ENERGY_CONTENT_MMBTU_PER_T]

/-- C3, witness at the concrete slow-vessel data: the voyage is the degenerate
one whose delivered cargo is negative, and it is surfaced as-is. -/
theorem calculate_voyage_passthrough_witness :
    (findRoute cexCalc.routes "L" "D" = some cexRoute) ∧
    (findVessel cexCalc.vessels "V" = some cexVessel) ∧
    cexVessel.laden_speed_kn ≠ 0 ∧
    (∃ v, cexCalc.calculate_voyage "L" "D" "V" 100 0 0 0 "VLSFO" = some v ∧
      v.boil_off_m3 = 100 * (cexVessel.boil_off_pct_per_day / 100) * v.voyage_days ∧
      v.delivered_cargo_m3 = 100 - v.boil_off_m3 ∧
      v.delivered_energy_mmbtu = v.delivered_cargo_m3 * 0.45 * 52) :=
  ⟨rfl, rfl, by norm_num [cexVessel],
    calculate_voyage_passthrough cexCalc "L" "D" "V" "VLSFO" 100 0 0 0
      cexRoute cexVessel rfl rfl (by norm_num [cexVessel])⟩

/-! ## Config validation (`engine/validation.py`) -/

/-- The numeric portion of the configuration dict checked by `validate_config`
(field names are the dict keys; presence of the keys is enforced by this record
type, mirroring the `KeyError` check). -/
structure Config where
  DECISION_BUFFER_USD : ℚ
  OPS_BUFFER_USD : ℚ
  BASIS_ADJUSTMENT : ℚ
  COVERAGE_PCT : ℚ
  TTF_LOT_MMBTU : ℚ
  JKM_LOT_MMBTU : ℚ
  STRESS_SPREAD_USD : ℚ
  STRESS_FREIGHT_USD_PER_DAY : ℚ
  STRESS_EUA_USD : ℚ

/-- `validate_config`: the chain of numeric checks, first failure raising
`ValueError` (modelled as `Except.error` with the message). -/
def validate_config (cfg : Config) : Except String Unit :=
  if 0 ≤ cfg.BASIS_ADJUSTMENT ∧ cfg.BASIS_ADJUSTMENT ≤ 1 then
    if 0 ≤ cfg.COVERAGE_PCT ∧ cfg.COVERAGE_PCT ≤ 1 then
      if cfg.DECISION_BUFFER_USD ≤ 0 then Except.error "DECISION_BUFFER_USD must be > 0"
      else if cfg.OPS_BUFFER_USD ≤ 0 then Except.error "OPS_BUFFER_USD must be > 0"
      else if cfg.TTF_LOT_MMBTU ≤ 0 then Except.error "TTF_LOT_MMBTU must be > 0"
      else if cfg.JKM_LOT_MMBTU ≤ 0 then Except.error "JKM_LOT_MMBTU must be > 0"
      else if cfg.STRESS_SPREAD_USD < 0 then Except.error "STRESS_SPREAD_USD must be >= 0"
      else if cfg.STRESS_FREIGHT_USD_PER_DAY < 0 then
        Except.error "STRESS_FREIGHT_USD_PER_DAY must be >= 0"
      else if cfg.STRESS_EUA_USD < 0 then Except.error "STRESS_EUA_USD must be >= 0"
      else Except.ok ()
    else Except.error "COVERAGE_PCT must be in [0,1]"
  else Except.error "BASIS_ADJUSTMENT must be in [0,1]"

/-! ## Claim C4 -/

/-- An engine configuration with `basis_adjustment_pct = 5`, far outside `[0,1]`. -/
def cexEngine : DecisionEngine :=
  { decision_buffer_usd := 20, operational_risk_buffer_usd := 10,
    basis_adjustment_pct := 5, coverage_pct := 0.8,
    jkm_lot_mmbtu := 10000, ttf_lot_mmbtu := 10000 }

/-- C4 counterexample: with an invalid ratio parameter
(`basis_adjustment_pct = 5 ∉ [0,1]`) `DecisionEngine.evaluate` does not fail:
it returns a normal `DecisionResult` (here with decision `"KEEP"` and adjusted
delta −410), because the engine performs no defensive validation. -/
theorem decision_engine_no_validation_cex :
    1 < cexEngine.basis_adjustment_pct ∧
    (cexEngine.evaluate 0 (mkNB 0 100) (mkNB 0 200)).map
        (fun r => (r.decision, r.delta_netback_adj_usd))
      = some ("KEEP", -410) := by
  refine ⟨by norm_num [cexEngine], ?_⟩
  norm_num [cexEngine, mkNB, DecisionEngine.evaluate]

/-- C4 amended: domain validation of the decision-rule parameters lives in the
separate `validate_config` collaborator, which rejects (raising `ValueError`,
before any engine computation runs) every configuration whose ratio parameters
lie outside `[0,1]` or whose buffers/lot sizes are non-positive; the
`DecisionEngine` itself performs no defensive check: with non-zero lot sizes it
returns a normal `DecisionResult` (decision `"DIVERT"` or `"KEEP"`) under any
parameters, invalid ratios and buffers included, and the only error it can
raise is the `ZeroDivisionError` from a zero lot size on the DIVERT branch —
never an `InvalidConfigError`. -/
theorem config_validation_behavior :
    (∀ cfg : Config,
      (cfg.BASIS_ADJUSTMENT < 0 ∨ 1 < cfg.BASIS_ADJUSTMENT ∨
       cfg.COVERAGE_PCT < 0 ∨ 1 < cfg.COVERAGE_PCT ∨
       cfg.DECISION_BUFFER_USD ≤ 0 ∨ cfg.OPS_BUFFER_USD ≤ 0 ∨
       cfg.TTF_LOT_MMBTU ≤ 0 ∨ cfg.JKM_LOT_MMBTU ≤ 0) →
      ∃ msg, validate_config cfg = Except.error msg) ∧
    (∀ (e : DecisionEngine) (date : ℤ) (eu asia : NetbackResult),
      e.jkm_lot_mmbtu ≠ 0 → e.ttf_lot_mmbtu ≠ 0 →
      e.evaluate date eu asia ≠ none ∧
      ∀ r, e.evaluate date eu asia = some r →
        (r.decision = "DIVERT" ∨ r.decision = "KEEP")) ∧
    (∀ (e : DecisionEngine) (date : ℤ) (eu asia : NetbackResult),
      e.jkm_lot_mmbtu = 0 →
      e.decision_buffer_usd ≤ (asia.netback_usd - eu.netback_usd)
          * (1 - e.basis_adjustment_pct) - e.operational_risk_buffer_usd →
      e.evaluate date eu asia = none) := by
  constructor
  · intro cfg h
    unfold validate_config
    split
    · split
      · rename_i hb hc
        split
        · exact ⟨_, rfl⟩
        · split
          · exact ⟨_, rfl⟩
          · split
            · exact ⟨_, rfl⟩
            · split
              · exact ⟨_, rfl⟩
              · rename_i h1 h2 h3 h4
                rcases h with h | h | h | h | h | h | h | h <;>
                  first
                    | (exfalso; exact absurd h (not_lt.mpr hb.1))
                    | (exfalso; exact absurd h (not_lt.mpr hb.2))
                    | (exfalso; exact absurd h (not_lt.mpr hc.1))
                    | (exfalso; exact absurd h (not_lt.mpr hc.2))
                    | (exfalso; exact h1 h)
                    | (exfalso; exact h2 h)
                    | (exfalso; exact h3 h)
                    | (exfalso; exact h4 h)
      · exact ⟨_, rfl⟩
    · exact ⟨_, rfl⟩
  constructor
  · intro e date eu asia hj ht
    constructor
    · by_cases h : (asia.netback_usd - eu.netback_usd) * (1 - e.basis_adjustment_pct)
          - e.operational_risk_buffer_usd ≥ e.decision_buffer_usd
      · simp [DecisionEngine.evaluate, if_pos h,
          create_divert_ticket_some e date _ _ _ _ hj ht]
      · simp [DecisionEngine.evaluate, if_neg h]
    · intro r hr
      by_cases h : (asia.netback_usd - eu.netback_usd) * (1 - e.basis_adjustment_pct)
          - e.operational_risk_buffer_usd ≥ e.decision_buffer_usd
      · simp only [DecisionEngine.evaluate, if_pos h,
          create_divert_ticket_some e date _ _ _ _ hj ht,
          Option.some.injEq] at hr
        subst hr
        left
        rfl
      · simp only [DecisionEngine.evaluate, if_neg h, Option.some.injEq] at hr
        subst hr
        right
        rfl
  · intro e date eu asia hz h
    simp only [DecisionEngine.evaluate, if_pos h]
    simp [DecisionEngine.create_divert_ticket, hz]

/-- An invalid configuration: basis haircut of 5 (a percentage entered where a
fraction was expected, as in `tests/test_validation.py`). -/
def cexConfig : Config :=
  { DECISION_BUFFER_USD := 250000, OPS_BUFFER_USD := 150000,
    BASIS_ADJUSTMENT := 5, COVERAGE_PCT := 0.8,
    TTF_LOT_MMBTU := 10000, JKM_LOT_MMBTU := 10000,
    STRESS_SPREAD_USD := 1, STRESS_FREIGHT_USD_PER_DAY := 20000,
    STRESS_EUA_USD := 10 }

/-- C4 amended, witness: the invalid configuration with `BASIS_ADJUSTMENT = 5`
is rejected by `validate_config`, the engine (non-zero lot sizes) still
evaluates normally, and the zero-lot-size engine fails on a diverting pair. -/
theorem config_validation_behavior_witness :
    (1 : ℚ) < cexConfig.BASIS_ADJUSTMENT ∧
    (∃ msg, validate_config cexConfig = Except.error msg) ∧
    (cexEngine.evaluate 0 (mkNB 0 100) (mkNB 0 200) ≠ none ∧
     ∀ r, cexEngine.evaluate 0 (mkNB 0 100) (mkNB 0 200) = some r →
       (r.decision = "DIVERT" ∨ r.decision = "KEEP")) ∧
    cexEngineZeroLot.evaluate 0 (mkNB 0 100) (mkNB 0 10000) = none :=
  ⟨by norm_num [cexConfig],
   config_validation_behavior.1 cexConfig (Or.inr (Or.inl (by norm_num [cexConfig]))),
   config_validation_behavior.2.1 cexEngine 0 (mkNB 0 100) (mkNB 0 200)
     (by norm_num [cexEngine]) (by norm_num [cexEngine]),
   config_validation_behavior.2.2 cexEngineZeroLot 0 (mkNB 0 100) (mkNB 0 10000)
     rfl (by norm_num [cexEngineZeroLot, mkNB])⟩

/-! ## `decide_and_size` (imported by `run.py`, `risk.py` and the tests) -/

/-- The result record of `decide_and_size` (the spec's §3 `DecisionResult`
shape: deltas, decision, hedge energy and per-instrument lots; named
differently here because `decision.py` already has a `DecisionResult` class
with other fields). -/
structure SizedDecision where
  delta_netback_raw_usd : ℚ
  delta_netback_adj_usd : ℚ
  decision : String
  hedge_energy_mmbtu : ℚ
  lots_ttf : ℤ
  lots_jkm : ℤ
deriving DecidableEq

/-- The decision-and-sizing arithmetic of `decide_and_size` once both lot-size
divisions are known to succeed. -/
def sizedOf
    (europe_netback_usd asia_netback_usd hedge_energy_mmbtu
     basis_haircut_pct ops_buffer_usd decision_buffer_usd
     ttf_lot_mmbtu jkm_lot_mmbtu : ℚ) : SizedDecision :=
  let delta_raw := asia_netback_usd - europe_netback_usd
  let delta_adj := delta_raw * (1 - basis_haircut_pct) - ops_buffer_usd
  { delta_netback_raw_usd := delta_raw
    delta_netback_adj_usd := delta_adj
    decision := if delta_adj ≥ decision_buffer_usd then "DIVERT" else "KEEP"
    hedge_energy_mmbtu := hedge_energy_mmbtu
    lots_ttf := ⌊hedge_energy_mmbtu / ttf_lot_mmbtu⌋
    lots_jkm := ⌊hedge_energy_mmbtu / jkm_lot_mmbtu⌋ }

/-- Modelled from the spec: `decide_and_size` is imported from
`engine.decision` by `run.py`, `risk.py`, `__init__.py` and the tests, but its
definition is absent from the sources.  Modelled from spec §4.3 (`decide`):
`delta_raw = netback_b − netback_a`, `delta_adj = delta_raw·(1 − haircut) −
ops_buffer`, decision `DIVERT` iff `delta_adj ≥ decision_buffer` else `KEEP`,
and `lots_x = floor(hedge_energy / lot_size_x)` per instrument, with lot sizes
defaulting to 10000 as in §4.3 and `run.py`.  At a zero lot size the floor
quotient has no value (any Python implementation raises `ZeroDivisionError`),
so the function is `Option` valued and returns `none` there. -/
def decide_and_size
    (europe_netback_usd asia_netback_usd hedge_energy_mmbtu
     basis_haircut_pct ops_buffer_usd decision_buffer_usd : ℚ)
    (ttf_lot_mmbtu : ℚ := 10000) (jkm_lot_mmbtu : ℚ := 10000) :
    Option SizedDecision :=
  if ttf_lot_mmbtu = 0 then none
  else if jkm_lot_mmbtu = 0 then none
  else some (sizedOf europe_netback_usd asia_netback_usd hedge_energy_mmbtu
    basis_haircut_pct ops_buffer_usd decision_buffer_usd
    ttf_lot_mmbtu jkm_lot_mmbtu)

/-- Reduction of `decide_and_size` at non-zero lot sizes. -/
theorem decide_and_size_some
    (a b c d e f tl jl : ℚ) (htl : tl ≠ 0) (hjl : jl ≠ 0) :
    decide_and_size a b c d e f tl jl = some (sizedOf a b c d e f tl jl) := by
  simp only [decide_and_size, if_neg htl, if_neg hjl]

/-! ## One-call engine (`engine/run.py`) -/

/-- One entry of the trade pack's `hedge_legs` list. -/
structure PackLeg where
  leg : String
  lots : ℤ
deriving DecidableEq

/-- The trade-pack dict returned by `run_trade_decision` (the `inputs` echo and
per-destination sub-dicts are omitted except for the fields the claims read). -/
structure TradePack where
  europe_netback : NetbackResult
  asia_netback : NetbackResult
  delta_raw_usd : ℚ
  delta_adj_usd : ℚ
  decision : String
  hedge_energy_mmbtu : ℚ
  lots_ttf : ℤ
  lots_jkm : ℤ
  hedge_legs : List PackLeg
deriving DecidableEq

/-- `run_trade_decision` from `run.py`: compare netbacks, size the hedge from
the max delivered energy times coverage, decide, and build the trade pack —
including a `hedge_legs` list on *both* branches of the decision (reversed legs
on KEEP). -/
def run_trade_decision (routes : List Route) (vessels : List Vessel)
    (carbon_params : CarbonParams)
    (load_port europe_port asia_port vessel_class : String)
    (cargo_capacity_m3 ttf_price jkm_price freight_rate_usd_day
     fuel_price_usd_t eua_price_usd_t
     basis_haircut_pct ops_buffer_usd decision_buffer_usd : ℚ)
    (coverage_pct : ℚ := 0.80) (ttf_lot_mmbtu : ℚ := 10000)
    (jkm_lot_mmbtu : ℚ := 10000) : Option TradePack :=
  let calculator : NetbackCalculator :=
    { routes := routes, vessels := vessels, carbon_params := carbon_params }
  match calculator.compare_netbacks load_port europe_port asia_port vessel_class
      cargo_capacity_m3 ttf_price jkm_price freight_rate_usd_day
      fuel_price_usd_t eua_price_usd_t with
  | none => none
  | some (eu, asia) =>
    let hedge_energy_mmbtu :=
      max eu.delivered_energy_mmbtu asia.delivered_energy_mmbtu * coverage_pct
    match decide_and_size eu.netback_usd asia.netback_usd
        hedge_energy_mmbtu basis_haircut_pct ops_buffer_usd decision_buffer_usd
        ttf_lot_mmbtu jkm_lot_mmbtu with
    | none => none
    | some decision =>
      some
        { europe_netback := eu
          asia_netback := asia
          delta_raw_usd := decision.delta_netback_raw_usd
          delta_adj_usd := decision.delta_netback_adj_usd
          decision := decision.decision
          hedge_energy_mmbtu := decision.hedge_energy_mmbtu
          lots_ttf := decision.lots_ttf
          lots_jkm := decision.lots_jkm
          hedge_legs :=
            if decision.decision == "DIVERT" then
              [{ leg := "BUY JKM", lots := decision.lots_jkm },
               { leg := "SELL TTF", lots := decision.lots_ttf }]
            else
              [{ leg := "BUY TTF", lots := decision.lots_ttf },
               { leg := "SELL JKM", lots := decision.lots_jkm }] }

/-- Reduction of `compare_netbacks` when both route lookups and the vessel
lookup succeed and the speed is non-zero.  Succeeding does not depend on any
price or rate input. -/
theorem compare_netbacks_some (c : NetbackCalculator)
    (lp ep ap vc : String) (cap ttf jkm fr fp eua : ℚ)
    (r1 r2 : Route) (vessel : Vessel)
    (hr1 : findRoute c.routes lp ep = some r1)
    (hr2 : findRoute c.routes lp ap = some r2)
    (hv : findVessel c.vessels vc = some vessel)
    (hne : ¬ (vessel.laden_speed_kn * HOURS_PER_DAY = 0)) :
    c.compare_netbacks lp ep ap vc cap ttf jkm fr fp eua
      = some (c.calculate_netback "Europe" ttf
                (voyageCore c.carbon_params r1 vessel cap fr fp eua "VLSFO"),
              c.calculate_netback "Asia" jkm
                (voyageCore c.carbon_params r2 vessel cap fr fp eua "VLSFO")) := by
  simp only [NetbackCalculator.compare_netbacks,
    calculate_voyage_some c lp ep vc "VLSFO" cap fr fp eua r1 vessel hr1 hv hne,
    calculate_voyage_some c lp ap vc "VLSFO" cap fr fp eua r2 vessel hr2 hv hne]

/-! ## Claim C5 -/

def wRouteE : Route := { load_port := "L", discharge_port := "E", distance_nm := 0 }

def wRouteA : Route := { load_port := "L", discharge_port := "A", distance_nm := 0 }

def wRoutes : List Route := [wRouteE, wRouteA]

def wVessel : Vessel :=
  { vessel_class := "V", cargo_capacity_m3 := 100, laden_speed_kn := 10,
    ballast_speed_kn := 10, boil_off_pct_per_day := 1,
    fuel_consumption_tpd_laden := 2, fuel_consumption_tpd_ballast := 2 }

def wCarbon : CarbonParams :=
  { CO2_factor_VLSFO_tCO2_per_t_fuel := 3, CO2_factor_LNG_tCO2_per_t_fuel := 3 }

/-- C5 counterexample: at inputs on which the decision is `"KEEP"` (equal TTF
and JKM prices, so the adjusted delta is below the buffer),
`run_trade_decision` still returns a trade pack carrying two hedge legs —
reversed legs, `BUY TTF` / `SELL JKM` — contradicting "carries no hedge legs
when the decision is KEEP" at this entry point. -/
theorem run_trade_decision_keep_legs_cex :
    (run_trade_decision wRoutes [wVessel] wCarbon "L" "E" "A" "V"
        100 1 1 0 0 0 0.05 10 20 0.8 10 10).map
      (fun p => (p.decision, p.hedge_legs))
    = some ("KEEP", [{ leg := "BUY TTF", lots := 187 },
                     { leg := "SELL JKM", lots := 187 }]) := by
  simp only [run_trade_decision,
    compare_netbacks_some
      { routes := wRoutes, vessels := [wVessel], carbon_params := wCarbon }
      "L" "E" "A" "V" 100 1 1 0 0 0 wRouteE wRouteA wVessel
      rfl rfl rfl (by norm_num [wVessel, HOURS_PER_DAY]),
    Option.map_some]
  norm_num [decide_and_size, sizedOf, NetbackCalculator.calculate_netback,
    voyageCore, wRouteE, wRouteA, wVessel, HOURS_PER_DAY, LNG_DENSITY_T_PER_M3,
    ENERGY_CONTENT_MMBTU_PER_T]
  exact fun h => absurd h (by simp)

/-- C5 amended: whenever the lot sizes are non-zero (so the hedge sizing does
not raise `ZeroDivisionError`), the class-based engine's trade tickets carry
hedge legs exactly when the decision is DIVERT (long JKM, short TTF, none on
KEEP); but every trade pack the `run_trade_decision` entry point returns
carries a two-leg hedge list: long JKM/short TTF on DIVERT and the reversed
pair (long TTF/short JKM) on KEEP. -/
theorem hedge_legs_policy :
    (∀ (e : DecisionEngine) (date : ℤ) (eu asia : NetbackResult),
      e.jkm_lot_mmbtu ≠ 0 → e.ttf_lot_mmbtu ≠ 0 →
      e.evaluate date eu asia ≠ none ∧
      ∀ r, e.evaluate date eu asia = some r →
        (r.trade_ticket.hedge_legs ≠ none ↔ r.decision = "DIVERT")) ∧
    (∀ (routes : List Route) (vessels : List Vessel) (cp : CarbonParams)
       (lp ep ap vc : String) (cap ttf jkm fr fp eua basis ops buffer cov tl jl : ℚ)
       (pack : TradePack),
      run_trade_decision routes vessels cp lp ep ap vc cap ttf jkm fr fp eua
          basis ops buffer cov tl jl = some pack →
      pack.hedge_legs.length = 2 ∧
      (pack.decision = "DIVERT" →
        pack.hedge_legs = [{ leg := "BUY JKM", lots := pack.lots_jkm },
                           { leg := "SELL TTF", lots := pack.lots_ttf }]) ∧
      (pack.decision ≠ "DIVERT" →
        pack.hedge_legs = [{ leg := "BUY TTF", lots := pack.lots_ttf },
                           { leg := "SELL JKM", lots := pack.lots_jkm }])) := by
  constructor
  · intro e date eu asia hj ht
    constructor
    · by_cases h : (asia.netback_usd - eu.netback_usd) * (1 - e.basis_adjustment_pct)
          - e.operational_risk_buffer_usd ≥ e.decision_buffer_usd
      · simp [DecisionEngine.evaluate, if_pos h,
          create_divert_ticket_some e date _ _ _ _ hj ht]
      · simp [DecisionEngine.evaluate, if_neg h]
    · intro r hr
      by_cases h : (asia.netback_usd - eu.netback_usd) * (1 - e.basis_adjustment_pct)
          - e.operational_risk_buffer_usd ≥ e.decision_buffer_usd
      · simp only [DecisionEngine.evaluate, if_pos h,
          create_divert_ticket_some e date _ _ _ _ hj ht,
          Option.some.injEq] at hr
        subst hr
        simp [divertTicketOf]
      · simp only [DecisionEngine.evaluate, if_neg h, Option.some.injEq] at hr
        subst hr
        simp [DecisionEngine.create_keep_ticket]
  · intro routes vessels cp lp ep ap vc cap ttf jkm fr fp eua basis ops buffer cov tl jl
      pack hp
    rw [run_trade_decision] at hp
    rcases hm : NetbackCalculator.compare_netbacks
        { routes := routes, vessels := vessels, carbon_params := cp }
        lp ep ap vc cap ttf jkm fr fp eua with _ | ⟨eu, asia⟩
    · rw [hm] at hp
      exact absurd hp (by simp)
    · rw [hm] at hp
      simp only [] at hp
      rcases hd2 : decide_and_size eu.netback_usd asia.netback_usd
          (max eu.delivered_energy_mmbtu asia.delivered_energy_mmbtu * cov)
          basis ops buffer tl jl with _ | d
      · rw [hd2] at hp
        exact absurd hp (by simp)
      · rw [hd2] at hp
        simp only [Option.some.injEq] at hp
        subst hp
        by_cases hdec : d.decision = "DIVERT"
        · simp [hdec]
        · simp [hdec]

/-- C5 amended, witness: at a concrete input `run_trade_decision` returns a
pack whose hedge-leg list has length two. -/
theorem hedge_legs_policy_witness :
    (run_trade_decision wRoutes [wVessel] wCarbon "L" "E" "A" "V"
        100 1 2 0 0 0 0.05 10 20 0.8 10 10).map
      (fun p => p.hedge_legs.length) = some 2 := by
  obtain ⟨pack, hp⟩ : ∃ p, run_trade_decision wRoutes [wVessel] wCarbon "L" "E" "A" "V"
      100 1 2 0 0 0 0.05 10 20 0.8 10 10 = some p := by
    simp only [run_trade_decision,
      compare_netbacks_some
        { routes := wRoutes, vessels := [wVessel], carbon_params := wCarbon }
        "L" "E" "A" "V" 100 1 2 0 0 0 wRouteE wRouteA wVessel
        rfl rfl rfl (by norm_num [wVessel, HOURS_PER_DAY])]
    rw [decide_and_size_some _ _ _ _ _ _ _ _
      (show (10 : ℚ) ≠ 0 by norm_num) (show (10 : ℚ) ≠ 0 by norm_num)]
    exact ⟨_, rfl⟩
  rw [hp]
  show some pack.hedge_legs.length = some 2
  exact congrArg some
    ((hedge_legs_policy.2 wRoutes [wVessel] wCarbon "L" "E" "A" "V"
      100 1 2 0 0 0 0.05 10 20 0.8 10 10 pack hp).1)

/-! ## Claim C6 -/

/-- An engine configuration with full coverage and standard positive lot sizes. -/
def cexEngineC6 : DecisionEngine :=
  { decision_buffer_usd := 20, operational_risk_buffer_usd := 10,
    basis_adjustment_pct := 0.05, coverage_pct := 1,
    jkm_lot_mmbtu := 10000, ttf_lot_mmbtu := 10000 }

/-- C6 counterexample: with positive lot sizes (10000) but a negative hedge
energy (delivered energy −10000 MMBtu, a valid unclamped degenerate value times
coverage 1), `_create_divert_ticket` sizes `jkm_lots = ⌊−1⌋ = −1 < 0`: lots can
be negative, contradicting "lots are never negative". -/
theorem create_divert_ticket_negative_lots_cex :
    (0 : ℚ) < cexEngineC6.jkm_lot_mmbtu ∧ (0 : ℚ) < cexEngineC6.ttf_lot_mmbtu ∧
    (cexEngineC6.create_divert_ticket 0 0 0 (mkNB 0 0) (mkNB (-10000) 0)).map
        (fun t => t.jkm_lots)
      = some (some (-1)) ∧ (-1 : ℤ) < 0 := by
  refine ⟨by norm_num [cexEngineC6], by norm_num [cexEngineC6], ?_, by norm_num⟩
  rw [create_divert_ticket_some _ _ _ _ _ _
    (by norm_num [cexEngineC6]) (by norm_num [cexEngineC6])]
  show some ((divertTicketOf cexEngineC6 0 0 0 (mkNB 0 0) (mkNB (-10000) 0)).jkm_lots)
    = some (some (-1))
  simp only [divertTicketOf, cexEngineC6, mkNB, Option.some.injEq]
  norm_num

/-- C6 amended: with positive lot sizes, `_create_divert_ticket` sizes each leg
as `⌊hedge_energy / lot_size⌋` where `hedge_energy` is the Asia delivered
energy times coverage; the lot counts are non-negative whenever the hedge
energy is non-negative (they can be negative for negative hedge energy), and
they are monotone: a larger hedge energy never yields fewer lots. -/
theorem create_divert_ticket_lot_sizing (e : DecisionEngine) (date : ℤ)
    (draw dadj : ℚ) (eu asia asia2 : NetbackResult)
    (hj : 0 < e.jkm_lot_mmbtu) (ht : 0 < e.ttf_lot_mmbtu) :
    e.create_divert_ticket date draw dadj eu asia
      = some (divertTicketOf e date draw dadj eu asia) ∧
    (divertTicketOf e date draw dadj eu asia).hedge_energy_mmbtu
      = some (asia.delivered_energy_mmbtu * e.coverage_pct) ∧
    (divertTicketOf e date draw dadj eu asia).jkm_lots
      = some ⌊asia.delivered_energy_mmbtu * e.coverage_pct / e.jkm_lot_mmbtu⌋ ∧
    (divertTicketOf e date draw dadj eu asia).ttf_lots
      = some ⌊asia.delivered_energy_mmbtu * e.coverage_pct / e.ttf_lot_mmbtu⌋ ∧
    (0 ≤ asia.delivered_energy_mmbtu * e.coverage_pct →
      0 ≤ ⌊asia.delivered_energy_mmbtu * e.coverage_pct / e.jkm_lot_mmbtu⌋ ∧
      0 ≤ ⌊asia.delivered_energy_mmbtu * e.coverage_pct / e.ttf_lot_mmbtu⌋) ∧
    (asia.delivered_energy_mmbtu * e.coverage_pct
        ≤ asia2.delivered_energy_mmbtu * e.coverage_pct →
      ⌊asia.delivered_energy_mmbtu * e.coverage_pct / e.jkm_lot_mmbtu⌋
          ≤ ⌊asia2.delivered_energy_mmbtu * e.coverage_pct / e.jkm_lot_mmbtu⌋ ∧
      ⌊asia.delivered_energy_mmbtu * e.coverage_pct / e.ttf_lot_mmbtu⌋
          ≤ ⌊asia2.delivered_energy_mmbtu * e.coverage_pct / e.ttf_lot_mmbtu⌋) := by
  refine ⟨create_divert_ticket_some e date draw dadj eu asia
    (ne_of_gt hj) (ne_of_gt ht), rfl, rfl, rfl, ?_, ?_⟩
  · intro h0
    exact ⟨Int.floor_nonneg.mpr (div_nonneg h0 hj.le),
           Int.floor_nonneg.mpr (div_nonneg h0 ht.le)⟩
  · intro hle
    constructor
    · apply Int.floor_le_floor
      gcongr
    · apply Int.floor_le_floor
      gcongr

/-- C6 amended, witness: concrete sizing at hedge energies 15000 and 25000 with
lot size 10000 gives 1 and 2 lots. -/
theorem create_divert_ticket_lot_sizing_witness :
    (0 : ℚ) < cexEngineC6.jkm_lot_mmbtu ∧ (0 : ℚ) < cexEngineC6.ttf_lot_mmbtu ∧
    cexEngineC6.create_divert_ticket 0 0 0 (mkNB 0 0) (mkNB 15000 0)
      = some (divertTicketOf cexEngineC6 0 0 0 (mkNB 0 0) (mkNB 15000 0)) ∧
    (divertTicketOf cexEngineC6 0 0 0 (mkNB 0 0) (mkNB 15000 0)).hedge_energy_mmbtu
      = some ((mkNB 15000 0).delivered_energy_mmbtu * cexEngineC6.coverage_pct) ∧
    (divertTicketOf cexEngineC6 0 0 0 (mkNB 0 0) (mkNB 15000 0)).jkm_lots
      = some ⌊(mkNB 15000 0).delivered_energy_mmbtu * cexEngineC6.coverage_pct
          / cexEngineC6.jkm_lot_mmbtu⌋ ∧
    (0 ≤ (mkNB 15000 0).delivered_energy_mmbtu * cexEngineC6.coverage_pct →
      0 ≤ ⌊(mkNB 15000 0).delivered_energy_mmbtu * cexEngineC6.coverage_pct
          / cexEngineC6.jkm_lot_mmbtu⌋) ∧
    ((mkNB 15000 0).delivered_energy_mmbtu * cexEngineC6.coverage_pct
        ≤ (mkNB 25000 0).delivered_energy_mmbtu * cexEngineC6.coverage_pct →
      ⌊(mkNB 15000 0).delivered_energy_mmbtu * cexEngineC6.coverage_pct
          / cexEngineC6.jkm_lot_mmbtu⌋
        ≤ ⌊(mkNB 25000 0).delivered_energy_mmbtu * cexEngineC6.coverage_pct
          / cexEngineC6.jkm_lot_mmbtu⌋) := by
  have h := create_divert_ticket_lot_sizing cexEngineC6 0 0 0 (mkNB 0 0)
    (mkNB 15000 0) (mkNB 25000 0)
    (by norm_num [cexEngineC6]) (by norm_num [cexEngineC6])
  exact ⟨by norm_num [cexEngineC6], by norm_num [cexEngineC6],
    h.1, h.2.1, h.2.2.1, fun h0 => (h.2.2.2.2.1 h0).1,
    fun hle => (h.2.2.2.2.2 hle).1⟩

/-! ## Risk and stress testing (`engine/risk.py`) -/

/-- `StressScenario` dataclass. -/
structure StressScenario where
  name : String
  spread_shock_usd : ℚ := 0
  freight_shock_usd_day : ℚ := 0
  eua_shock_usd : ℚ := 0
deriving DecidableEq

/-- `StressResult` dataclass. -/
structure StressResult where
  scenario : StressScenario
  base_delta_netback_adj : ℚ
  stressed_delta_netback_adj : ℚ
  pnl_impact_usd : ℚ
  decision_change : Bool
  base_decision : String
  stressed_decision : String
deriving DecidableEq

/-- `RiskPack` dataclass.  The `base_result` passed around by the callers is a
`decide_and_size` result, so it is a `SizedDecision` here. -/
structure RiskPack where
  base_result : SizedDecision
  stress_results : List StressResult
  worst_case_pnl_impact : ℚ
  scenarios_causing_flip : List String

/-- `RiskAnalyzer` (its constructor fields, defaults as in `risk.py`). -/
structure RiskAnalyzer where
  netback_calculator : NetbackCalculator
  stress_spread_usd : ℚ
  stress_freight_usd_per_day : ℚ
  stress_eua_usd : ℚ
  basis_haircut_pct : ℚ := 0.05
  ops_buffer_usd : ℚ := 50000
  decision_buffer_usd : ℚ := 500000

/-- `RiskAnalyzer.create_scenarios`: the fixed six-scenario battery. -/
def RiskAnalyzer.create_scenarios (a : RiskAnalyzer) : List StressScenario :=
  [{ name := "Spread Collapse", spread_shock_usd := -a.stress_spread_usd },
   { name := "Spread Widen", spread_shock_usd := a.stress_spread_usd },
   { name := "Freight Spike", freight_shock_usd_day := a.stress_freight_usd_per_day },
   { name := "Freight Drop", freight_shock_usd_day := -a.stress_freight_usd_per_day },
   { name := "EUA Spike", eua_shock_usd := a.stress_eua_usd },
   { name := "Combined Adverse", spread_shock_usd := -a.stress_spread_usd,
     freight_shock_usd_day := a.stress_freight_usd_per_day,
     eua_shock_usd := a.stress_eua_usd }]

/-- Map a fallible function over a list, failing if any element fails (the
shape of `risk.py`'s scenario loop, where a raised error aborts the loop). -/
def mapOption (f : α → Option β) : List α → Option (List β)
  | [] => some []
  | x :: xs =>
    match f x, mapOption f xs with
    | some y, some ys => some (y :: ys)
    | _, _ => none

/-- The body of `run_stress_test`'s scenario loop (lines 115–156 of `risk.py`):
apply the shocks additively to the JKM price, the freight rate and the EUA
price, recompute both netbacks, re-evaluate the decision with the analyzer's
decision-rule parameters, and record the deltas. -/
def RiskAnalyzer.stress_one (a : RiskAnalyzer) (base_result : SizedDecision)
    (lp ep ap vc : String) (cap ttf jkm fr fp eua : ℚ)
    (sc : StressScenario) : Option StressResult :=
  match a.netback_calculator.compare_netbacks lp ep ap vc cap ttf
      (jkm + sc.spread_shock_usd) (fr + sc.freight_shock_usd_day) fp
      (eua + sc.eua_shock_usd) with
  | none => none
  | some (eu, asia) =>
    match decide_and_size eu.netback_usd asia.netback_usd
        asia.delivered_energy_mmbtu a.basis_haircut_pct a.ops_buffer_usd
        a.decision_buffer_usd with
    | none => none
    | some stressed =>
      some { scenario := sc
             base_delta_netback_adj := base_result.delta_netback_adj_usd
             stressed_delta_netback_adj := stressed.delta_netback_adj_usd
             pnl_impact_usd := stressed.delta_netback_adj_usd
               - base_result.delta_netback_adj_usd
             decision_change := stressed.decision != base_result.decision
             base_decision := base_result.decision
             stressed_decision := stressed.decision }

/-- `min()` over a non-empty Python list (the empty case is unreachable:
`create_scenarios` always returns six scenarios). -/
def minList : List ℚ → ℚ
  | [] => 0
  | x :: xs => xs.foldl min x

/-- `RiskAnalyzer.run_stress_test`. -/
def RiskAnalyzer.run_stress_test (a : RiskAnalyzer) (base_result : SizedDecision)
    (lp ep ap vc : String) (cap ttf jkm fr fp eua : ℚ) : Option RiskPack :=
  match mapOption (a.stress_one base_result lp ep ap vc cap ttf jkm fr fp eua)
      a.create_scenarios with
  | none => none
  | some stress_results =>
    some { base_result := base_result
           stress_results := stress_results
           worst_case_pnl_impact :=
             minList (stress_results.map (fun r => r.pnl_impact_usd))
           scenarios_causing_flip :=
             (stress_results.filter (fun r => r.decision_change)).map
               (fun r => r.scenario.name) }

theorem foldl_min_le_init (l : List ℚ) : ∀ a : ℚ, l.foldl min a ≤ a := by
  induction l with
  | nil => intro a; exact le_refl a
  | cons y ys ih =>
    intro a
    calc (y :: ys).foldl min a = ys.foldl min (min a y) := rfl
    _ ≤ min a y := ih (min a y)
    _ ≤ a := min_le_left a y

theorem foldl_min_le_of_mem (l : List ℚ) : ∀ (a x : ℚ), x ∈ l → l.foldl min a ≤ x := by
  induction l with
  | nil => intro a x hx; exact absurd hx (List.not_mem_nil x)
  | cons y ys ih =>
    intro a x hx
    rcases List.mem_cons.mp hx with rfl | hx'
    · calc (x :: ys).foldl min a = ys.foldl min (min a x) := rfl
      _ ≤ min a x := foldl_min_le_init ys (min a x)
      _ ≤ x := min_le_right a x
    · exact ih (min a y) x hx'

theorem foldl_min_mem (l : List ℚ) : ∀ a : ℚ, l.foldl min a ∈ a :: l := by
  induction l with
  | nil => intro a; exact List.mem_singleton.mpr rfl
  | cons y ys ih =>
    intro a
    have h := ih (min a y)
    rcases List.mem_cons.mp h with h' | h'
    · rcases min_choice a y with hm | hm
      · exact List.mem_cons.mpr (Or.inl (h'.trans hm))
      · exact List.mem_cons.mpr (Or.inr (List.mem_cons.mpr (Or.inl (h'.trans hm))))
    · exact List.mem_cons.mpr (Or.inr (List.mem_cons.mpr (Or.inr h')))

theorem minList_le_of_mem (l : List ℚ) (x : ℚ) (hx : x ∈ l) : minList l ≤ x := by
  cases l with
  | nil => exact absurd hx (List.not_mem_nil x)
  | cons y ys =>
    rcases List.mem_cons.mp hx with rfl | hx'
    · exact foldl_min_le_init ys x
    · exact foldl_min_le_of_mem ys y x hx'

theorem minList_mem (l : List ℚ) (hl : l ≠ []) : minList l ∈ l := by
  cases l with
  | nil => exact absurd rfl hl
  | cons y ys => exact foldl_min_mem ys y

/-- The stress result produced for one scenario when the reference-data lookups
succeed: both netbacks recomputed at the additively shocked JKM price, freight
rate and EUA price, and a fresh `decide_and_size` decision with the analyzer's
decision-rule parameters. -/
def stressResultOf (a : RiskAnalyzer) (base_result : SizedDecision)
    (r1 r2 : Route) (vessel : Vessel) (cap ttf jkm fr fp eua : ℚ)
    (sc : StressScenario) : StressResult :=
  let eu := a.netback_calculator.calculate_netback "Europe" ttf
    (voyageCore a.netback_calculator.carbon_params r1 vessel cap
      (fr + sc.freight_shock_usd_day) fp (eua + sc.eua_shock_usd) "VLSFO")
  let asia := a.netback_calculator.calculate_netback "Asia" (jkm + sc.spread_shock_usd)
    (voyageCore a.netback_calculator.carbon_params r2 vessel cap
      (fr + sc.freight_shock_usd_day) fp (eua + sc.eua_shock_usd) "VLSFO")
  let stressed := sizedOf eu.netback_usd asia.netback_usd
    asia.delivered_energy_mmbtu a.basis_haircut_pct a.ops_buffer_usd
    a.decision_buffer_usd 10000 10000
  { scenario := sc
    base_delta_netback_adj := base_result.delta_netback_adj_usd
    stressed_delta_netback_adj := stressed.delta_netback_adj_usd
    pnl_impact_usd := stressed.delta_netback_adj_usd
      - base_result.delta_netback_adj_usd
    decision_change := stressed.decision != base_result.decision
    base_decision := base_result.decision
    stressed_decision := stressed.decision }

theorem mapOption_eq_map (f : α → Option β) (g : α → β)
    (h : ∀ x, f x = some (g x)) : ∀ l : List α, mapOption f l = some (l.map g) := by
  intro l
  induction l with
  | nil => rfl
  | cons x xs ih => simp [mapOption, h x, ih]

theorem mem_flip_names (rs : List StressResult) (n : String) :
    n ∈ (rs.filter (fun r => r.decision_change)).map (fun r => r.scenario.name)
      ↔ ∃ sr, sr ∈ rs ∧ sr.decision_change = true ∧ sr.scenario.name = n := by
  simp [List.mem_filter, and_assoc]

/-! ## Claim C8 -/

/-- C8: whenever the reference-data lookups succeed, `run_stress_test`
evaluates exactly the six fixed scenarios (Spread Collapse −S, Spread Widen +S,
Freight Spike +F, Freight Drop −F, EUA Spike +E, Combined Adverse −S/+F/+E);
for each scenario the shock is applied additively to the JKM price, the freight
rate and the EUA price, both netbacks and a fresh `decide_and_size` decision
are recomputed with the analyzer's (base-case) decision-rule parameters,
`pnl_impact_usd` is stressed minus base adjusted delta, `decision_change` flags
a differing decision, `worst_case_pnl_impact` is the minimum p&l impact over
the six scenarios, and `scenarios_causing_flip` names exactly the scenarios
whose decision changed. -/
theorem run_stress_test_spec (a : RiskAnalyzer) (base_result : SizedDecision)
    (lp ep ap vc : String) (cap ttf jkm fr fp eua : ℚ)
    (r1 r2 : Route) (vessel : Vessel)
    (hr1 : findRoute a.netback_calculator.routes lp ep = some r1)
    (hr2 : findRoute a.netback_calculator.routes lp ap = some r2)
    (hv : findVessel a.netback_calculator.vessels vc = some vessel)
    (hne : ¬ (vessel.laden_speed_kn * HOURS_PER_DAY = 0)) :
    ∃ pack, a.run_stress_test base_result lp ep ap vc cap ttf jkm fr fp eua
        = some pack ∧
      pack.stress_results.map (fun r => r.scenario) =
        [{ name := "Spread Collapse", spread_shock_usd := -a.stress_spread_usd },
         { name := "Spread Widen", spread_shock_usd := a.stress_spread_usd },
         { name := "Freight Spike",
           freight_shock_usd_day := a.stress_freight_usd_per_day },
         { name := "Freight Drop",
           freight_shock_usd_day := -a.stress_freight_usd_per_day },
         { name := "EUA Spike", eua_shock_usd := a.stress_eua_usd },
         { name := "Combined Adverse", spread_shock_usd := -a.stress_spread_usd,
           freight_shock_usd_day := a.stress_freight_usd_per_day,
           eua_shock_usd := a.stress_eua_usd }] ∧
      (∀ sr ∈ pack.stress_results, ∃ eu asia,
        a.netback_calculator.compare_netbacks lp ep ap vc cap ttf
            (jkm + sr.scenario.spread_shock_usd)
            (fr + sr.scenario.freight_shock_usd_day) fp
            (eua + sr.scenario.eua_shock_usd) = some (eu, asia) ∧
        (∃ sd, decide_and_size eu.netback_usd asia.netback_usd
              asia.delivered_energy_mmbtu a.basis_haircut_pct a.ops_buffer_usd
              a.decision_buffer_usd = some sd ∧
          sr.stressed_delta_netback_adj = sd.delta_netback_adj_usd ∧
          sr.stressed_decision = sd.decision) ∧
        sr.base_delta_netback_adj = base_result.delta_netback_adj_usd ∧
        sr.pnl_impact_usd
          = sr.stressed_delta_netback_adj - base_result.delta_netback_adj_usd ∧
        sr.base_decision = base_result.decision ∧
        sr.decision_change = (sr.stressed_decision != base_result.decision)) ∧
      (∀ sr ∈ pack.stress_results,
        pack.worst_case_pnl_impact ≤ sr.pnl_impact_usd) ∧
      pack.worst_case_pnl_impact
        ∈ pack.stress_results.map (fun r => r.pnl_impact_usd) ∧
      pack.scenarios_causing_flip
        = (pack.stress_results.filter (fun r => r.decision_change)).map
            (fun r => r.scenario.name) ∧
      (∀ n, n ∈ pack.scenarios_causing_flip ↔
        ∃ sr, sr ∈ pack.stress_results ∧ sr.decision_change = true ∧
          sr.scenario.name = n) := by
  have hc : ∀ J F E : ℚ,
      a.netback_calculator.compare_netbacks lp ep ap vc cap ttf J F fp E
        = some (a.netback_calculator.calculate_netback "Europe" ttf
                  (voyageCore a.netback_calculator.carbon_params r1 vessel cap
                    F fp E "VLSFO"),
                a.netback_calculator.calculate_netback "Asia" J
                  (voyageCore a.netback_calculator.carbon_params r2 vessel cap
                    F fp E "VLSFO")) :=
    fun J F E => compare_netbacks_some a.netback_calculator lp ep ap vc cap ttf
      J F fp E r1 r2 vessel hr1 hr2 hv hne
  have hs : ∀ sc, a.stress_one base_result lp ep ap vc cap ttf jkm fr fp eua sc
      = some (stressResultOf a base_result r1 r2 vessel cap ttf jkm fr fp eua sc) := by
    intro sc
    rw [RiskAnalyzer.stress_one,
      hc (jkm + sc.spread_shock_usd) (fr + sc.freight_shock_usd_day)
        (eua + sc.eua_shock_usd)]
    rfl
  have hrun : a.run_stress_test base_result lp ep ap vc cap ttf jkm fr fp eua
      = some { base_result := base_result
               stress_results := a.create_scenarios.map
                 (stressResultOf a base_result r1 r2 vessel cap ttf jkm fr fp eua)
               worst_case_pnl_impact := minList ((a.create_scenarios.map
                 (stressResultOf a base_result r1 r2 vessel cap ttf jkm fr fp eua)).map
                   (fun r => r.pnl_impact_usd))
               scenarios_causing_flip := ((a.create_scenarios.map
                 (stressResultOf a base_result r1 r2 vessel cap ttf jkm fr fp eua)).filter
                   (fun r => r.decision_change)).map (fun r => r.scenario.name) } := by
    rw [RiskAnalyzer.run_stress_test, mapOption_eq_map _ _ hs]
  refine ⟨_, hrun, rfl, ?_, ?_, ?_, rfl, ?_⟩
  · intro sr hsr
    rw [List.mem_map] at hsr
    obtain ⟨sc, _, rfl⟩ := hsr
    exact ⟨_, _, hc _ _ _,
      ⟨_, decide_and_size_some _ _ _ _ _ _ _ _ (by norm_num) (by norm_num),
        rfl, rfl⟩,
      rfl, rfl, rfl, rfl⟩
  · intro sr hsr
    exact minList_le_of_mem _ _ (List.mem_map_of_mem _ hsr)
  · exact minList_mem _ (by simp [RiskAnalyzer.create_scenarios])
  · intro n
    exact mem_flip_names _ n

/-- A concrete analyzer over the zero-distance reference data. -/
def wAnalyzer : RiskAnalyzer :=
  { netback_calculator :=
      { routes := wRoutes, vessels := [wVessel], carbon_params := wCarbon },
    stress_spread_usd := 1, stress_freight_usd_per_day := 100,
    stress_eua_usd := 2, basis_haircut_pct := 0.05, ops_buffer_usd := 10,
    decision_buffer_usd := 20 }

/-- A concrete base decision computed with the analyzer's parameters (the
`decide_and_size` arithmetic at the default lot sizes). -/
def wBase : SizedDecision := sizedOf 2340 4680 1872 0.05 10 20 10000 10000

/-- C8, witness at the concrete analyzer, reference data and prices. -/
theorem run_stress_test_spec_witness :
    ∃ pack, wAnalyzer.run_stress_test wBase "L" "E" "A" "V" 100 1 2 0 0 0
        = some pack ∧
      pack.stress_results.map (fun r => r.scenario) =
        [{ name := "Spread Collapse", spread_shock_usd := -wAnalyzer.stress_spread_usd },
         { name := "Spread Widen", spread_shock_usd := wAnalyzer.stress_spread_usd },
         { name := "Freight Spike",
           freight_shock_usd_day := wAnalyzer.stress_freight_usd_per_day },
         { name := "Freight Drop",
           freight_shock_usd_day := -wAnalyzer.stress_freight_usd_per_day },
         { name := "EUA Spike", eua_shock_usd := wAnalyzer.stress_eua_usd },
         { name := "Combined Adverse", spread_shock_usd := -wAnalyzer.stress_spread_usd,
           freight_shock_usd_day := wAnalyzer.stress_freight_usd_per_day,
           eua_shock_usd := wAnalyzer.stress_eua_usd }] ∧
      (∀ sr ∈ pack.stress_results, ∃ eu asia,
        wAnalyzer.netback_calculator.compare_netbacks "L" "E" "A" "V" 100 1
            (2 + sr.scenario.spread_shock_usd)
            (0 + sr.scenario.freight_shock_usd_day) 0
            (0 + sr.scenario.eua_shock_usd) = some (eu, asia) ∧
        (∃ sd, decide_and_size eu.netback_usd asia.netback_usd
              asia.delivered_energy_mmbtu wAnalyzer.basis_haircut_pct
              wAnalyzer.ops_buffer_usd
              wAnalyzer.decision_buffer_usd = some sd ∧
          sr.stressed_delta_netback_adj = sd.delta_netback_adj_usd ∧
          sr.stressed_decision = sd.decision) ∧
        sr.base_delta_netback_adj = wBase.delta_netback_adj_usd ∧
        sr.pnl_impact_usd
          = sr.stressed_delta_netback_adj - wBase.delta_netback_adj_usd ∧
        sr.base_decision = wBase.decision ∧
        sr.decision_change = (sr.stressed_decision != wBase.decision)) ∧
      (∀ sr ∈ pack.stress_results,
        pack.worst_case_pnl_impact ≤ sr.pnl_impact_usd) ∧
      pack.worst_case_pnl_impact
        ∈ pack.stress_results.map (fun r => r.pnl_impact_usd) ∧
      pack.scenarios_causing_flip
        = (pack.stress_results.filter (fun r => r.decision_change)).map
            (fun r => r.scenario.name) ∧
      (∀ n, n ∈ pack.scenarios_causing_flip ↔
        ∃ sr, sr ∈ pack.stress_results ∧ sr.decision_change = true ∧
          sr.scenario.name = n) :=
  run_stress_test_spec wAnalyzer wBase "L" "E" "A" "V" 100 1 2 0 0 0
    wRouteE wRouteA wVessel rfl rfl rfl (by norm_num [wVessel, HOURS_PER_DAY])

/-! ## Backtesting (`engine/backtest.py`) -/

/-- One row of the `decision_history` DataFrame built by `run_backtest`
(lines 71–84): the fields extracted from a `DecisionResult`, plus the 0/1
`triggered` flag. -/
structure HistRow where
  date : ℤ
  decision : String
  delta_netback_raw_usd : ℚ
  delta_netback_adj_usd : ℚ
  netback_europe_usd : ℚ
  netback_asia_usd : ℚ
  triggered : ℕ
deriving DecidableEq

/-- Build one history row from a decision result. -/
def toHistRow (r : DecisionResult) : HistRow :=
  { date := r.date
    decision := r.decision
    delta_netback_raw_usd := r.delta_netback_raw_usd
    delta_netback_adj_usd := r.delta_netback_adj_usd
    netback_europe_usd := r.europe_netback.netback_usd
    netback_asia_usd := r.asia_netback.netback_usd
    triggered := if r.decision == "DIVERT" then 1 else 0 }

/-- Order on history rows by date (`sort_values("date")`). -/
def dateLe (a b : HistRow) : Prop := a.date ≤ b.date

instance : DecidableRel dateLe :=
  fun a b => inferInstanceAs (Decidable (a.date ≤ b.date))

instance : IsTotal HistRow dateLe := ⟨fun a b => le_total a.date b.date⟩

instance : IsTrans HistRow dateLe := ⟨fun _ _ _ h h2 => le_trans h h2⟩

/-- The sorted decision history (`sort_values("date").reset_index(drop=True)`). -/
def sortedHist (results : List DecisionResult) : List HistRow :=
  List.insertionSort dateLe (results.map toHistRow)

/-- Arithmetic mean of a column (`pandas .mean()`). -/
def mean (l : List ℚ) : ℚ := l.sum / l.length

/-- Sample variance (`pandas .std()` squared, `ddof = 1`): the Python code
compares `std > 0` and divides by `std`, and `std = √(sampleVar)`, so the
variance carries all the exact-arithmetic content of the standard deviation. -/
def sampleVar (l : List ℚ) : ℚ :=
  ((l.map (fun x => (x - mean l) ^ 2)).sum) / ((l.length : ℚ) - 1)

/-- The `pnl` column: `delta_netback_adj_usd` if triggered else 0 (lines
101–104). -/
def pnlList (sorted : List HistRow) : List ℚ :=
  sorted.map (fun r => if r.triggered == 1 then r.delta_netback_adj_usd else 0)

/-- `cumsum` with accumulator `acc`. -/
def cumsumFrom (acc : ℚ) : List ℚ → List ℚ
  | [] => []
  | x :: xs => (acc + x) :: cumsumFrom (acc + x) xs

/-- `pandas .cumsum()`: running sums seeded at 0. -/
def cumsum (l : List ℚ) : List ℚ := cumsumFrom 0 l

/-- `cummax` continuation with running maximum `m`. -/
def cummaxFrom (m : ℚ) : List ℚ → List ℚ
  | [] => []
  | x :: xs => max m x :: cummaxFrom (max m x) xs

/-- `pandas .cummax()`: running maxima. -/
def cummax : List ℚ → List ℚ
  | [] => []
  | x :: xs => x :: cummaxFrom x xs

/-- `pandas .max()` over a non-empty column (0 on the unreachable empty case). -/
def maxList : List ℚ → ℚ
  | [] => 0
  | x :: xs => xs.foldl max x

/-- `Backtester._calculate_max_drawdown` (leading underscore dropped):
`(running_max(cum) - cum).max()`, and 0 on an empty series. -/
def Backtester.calculate_max_drawdown (cumulative_pnl : List ℚ) : ℚ :=
  match cumulative_pnl with
  | [] => 0
  | x :: xs => maxList (List.zipWith (fun m c => m - c) (cummax (x :: xs)) (x :: xs))

/-- `BacktestMetrics` dataclass.  The nullable `sharpe_ratio` float is carried
as `Option (ℚ × ℚ)` holding the pair (mean of daily pnl, sample variance of
daily pnl): the Python value is `mean/√variance · √252`, which is irrational,
and the pair determines it exactly; `none` is Python's `None`. -/
structure BacktestMetrics where
  total_observations : ℕ
  triggered_trades : ℕ
  hit_rate : ℚ
  average_uplift_usd : ℚ
  total_uplift_usd : ℚ
  max_drawdown_usd : ℚ
  sharpe : Option (ℚ × ℚ)
deriving DecidableEq

/-- `BacktestResult` dataclass (the equity curve is the date/cumulative-pnl
table; `decision_history` is the sorted row list). -/
structure BacktestResult where
  metrics : BacktestMetrics
  equity_curve : List (ℤ × ℚ)
  decision_history : List HistRow
deriving DecidableEq

/-- The metric computations of `run_backtest` (lines 86–133), applied to the
already sorted decision history. -/
def buildBacktest (sorted : List HistRow) : BacktestResult :=
  let total_obs := sorted.length
  let triggered : ℕ := (sorted.map (fun r => r.triggered)).sum
  let hit_rate : ℚ := if 0 < total_obs then (triggered : ℚ) / (total_obs : ℚ) else 0
  let triggered_rows := sorted.filter (fun r => r.triggered == 1)
  let average_uplift := if 0 < triggered_rows.length then
      mean (triggered_rows.map (fun r => r.delta_netback_adj_usd)) else 0
  let total_uplift := if 0 < triggered_rows.length then
      (triggered_rows.map (fun r => r.delta_netback_adj_usd)).sum else 0
  let pnl := pnlList sorted
  let cumulative := cumsum pnl
  let max_drawdown := Backtester.calculate_max_drawdown cumulative
  let sharpe := if 5 ≤ sorted.length ∧ 0 < sampleVar pnl then
      some (mean pnl, sampleVar pnl) else none
  { metrics :=
      { total_observations := total_obs
        triggered_trades := triggered
        hit_rate := hit_rate
        average_uplift_usd := average_uplift
        total_uplift_usd := total_uplift
        max_drawdown_usd := max_drawdown
        sharpe := sharpe }
    equity_curve := List.zip (sorted.map (fun r => r.date)) cumulative
    decision_history := sorted }

/-- `Backtester.run_backtest`: raises (`none`) on an empty input, otherwise
sorts by date and computes the metrics. -/
def Backtester.run_backtest (results : List DecisionResult) : Option BacktestResult :=
  match results with
  | [] => none
  | _ :: _ => some (buildBacktest (sortedHist results))

/-! ### List lemmas for the backtest metrics -/

theorem sortedHist_length (rs : List DecisionResult) :
    (sortedHist rs).length = rs.length := by
  simp [sortedHist]

theorem pnlList_length (sorted : List HistRow) :
    (pnlList sorted).length = sorted.length := by
  simp [pnlList]

theorem cumsumFrom_length (l : List ℚ) : ∀ acc, (cumsumFrom acc l).length = l.length := by
  induction l with
  | nil => intro acc; rfl
  | cons x xs ih => intro acc; simp [cumsumFrom, ih]

theorem cumsum_length (l : List ℚ) : (cumsum l).length = l.length :=
  cumsumFrom_length l 0

theorem cummaxFrom_length (l : List ℚ) : ∀ m, (cummaxFrom m l).length = l.length := by
  induction l with
  | nil => intro m; rfl
  | cons x xs ih => intro m; simp [cummaxFrom, ih]

theorem cummax_length (l : List ℚ) : (cummax l).length = l.length := by
  cases l with
  | nil => rfl
  | cons x xs => simp [cummax, cummaxFrom_length]

theorem le_foldl_max_init (l : List ℚ) : ∀ a : ℚ, a ≤ l.foldl max a := by
  induction l with
  | nil => intro a; exact le_refl a
  | cons y ys ih =>
    intro a
    calc a ≤ max a y := le_max_left a y
    _ ≤ ys.foldl max (max a y) := ih (max a y)
    _ = (y :: ys).foldl max a := rfl

theorem le_foldl_max_of_mem (l : List ℚ) : ∀ (a x : ℚ), x ∈ l → x ≤ l.foldl max a := by
  induction l with
  | nil => intro a x hx; exact absurd hx (List.not_mem_nil x)
  | cons y ys ih =>
    intro a x hx
    rcases List.mem_cons.mp hx with rfl | hx'
    · calc x ≤ max a x := le_max_right a x
      _ ≤ ys.foldl max (max a x) := le_foldl_max_init ys (max a x)
      _ = (x :: ys).foldl max a := rfl
    · exact ih (max a y) x hx'

theorem le_maxList_of_mem (l : List ℚ) (x : ℚ) (hx : x ∈ l) : x ≤ maxList l := by
  cases l with
  | nil => exact absurd hx (List.not_mem_nil x)
  | cons y ys =>
    rcases List.mem_cons.mp hx with rfl | hx'
    · exact le_foldl_max_init ys x
    · exact le_foldl_max_of_mem ys y x hx'

theorem getD_mem (l : List ℚ) : ∀ j : ℕ, j < l.length → l.getD j 0 ∈ l := by
  induction l with
  | nil => intro j hj; simp at hj
  | cons x xs ih =>
    intro j hj
    cases j with
    | zero => simp
    | succ j' =>
      simp only [List.getD_cons_succ]
      exact List.mem_cons.mpr (Or.inr (ih j' (Nat.lt_of_succ_lt_succ hj)))

theorem le_cummaxFrom_getD (l : List ℚ) :
    ∀ (m : ℚ) (j : ℕ), j < l.length → m ≤ (cummaxFrom m l).getD j 0 := by
  induction l with
  | nil => intro m j hj; simp at hj
  | cons x xs ih =>
    intro m j hj
    cases j with
    | zero => simpa [cummaxFrom] using le_max_left m x
    | succ j' =>
      simp only [cummaxFrom, List.getD_cons_succ]
      exact le_trans (le_max_left m x) (ih (max m x) j' (Nat.lt_of_succ_lt_succ hj))

theorem getD_le_cummaxFrom_getD (l : List ℚ) :
    ∀ (m : ℚ) (i j : ℕ), i ≤ j → j < l.length →
      l.getD i 0 ≤ (cummaxFrom m l).getD j 0 := by
  induction l with
  | nil => intro m i j _ hj; simp at hj
  | cons x xs ih =>
    intro m i j hij hj
    cases i with
    | zero =>
      cases j with
      | zero => simpa [cummaxFrom] using le_max_right m x
      | succ j' =>
        simp only [cummaxFrom, List.getD_cons_zero, List.getD_cons_succ]
        exact le_trans (le_max_right m x)
          (le_cummaxFrom_getD xs (max m x) j' (Nat.lt_of_succ_lt_succ hj))
    | succ i' =>
      cases j with
      | zero => exact absurd hij (Nat.not_succ_le_zero i')
      | succ j' =>
        simp only [cummaxFrom, List.getD_cons_succ]
        exact ih (max m x) i' j' (Nat.le_of_succ_le_succ hij)
          (Nat.lt_of_succ_lt_succ hj)

theorem cummax_getD_ge (l : List ℚ) (i j : ℕ) (hij : i ≤ j) (hj : j < l.length) :
    l.getD i 0 ≤ (cummax l).getD j 0 := by
  cases l with
  | nil => simp at hj
  | cons x xs =>
    cases i with
    | zero =>
      cases j with
      | zero => simp [cummax]
      | succ j' =>
        simp only [cummax, List.getD_cons_zero, List.getD_cons_succ]
        exact le_cummaxFrom_getD xs x j' (Nat.lt_of_succ_lt_succ hj)
    | succ i' =>
      cases j with
      | zero => exact absurd hij (Nat.not_succ_le_zero i')
      | succ j' =>
        simp only [cummax, List.getD_cons_succ]
        exact getD_le_cummaxFrom_getD xs x i' j' (Nat.le_of_succ_le_succ hij)
          (Nat.lt_of_succ_lt_succ hj)

theorem zipWith_sub_getD (l1 : List ℚ) :
    ∀ (l2 : List ℚ) (j : ℕ), j < l1.length → j < l2.length →
      (List.zipWith (fun m c => m - c) l1 l2).getD j 0
        = l1.getD j 0 - l2.getD j 0 := by
  induction l1 with
  | nil => intro l2 j hj _; simp at hj
  | cons x xs ih =>
    intro l2 j hj1 hj2
    cases l2 with
    | nil => simp at hj2
    | cons y ys =>
      cases j with
      | zero => simp
      | succ j' =>
        simp only [List.zipWith_cons_cons, List.getD_cons_succ]
        exact ih ys j' (Nat.lt_of_succ_lt_succ hj1) (Nat.lt_of_succ_lt_succ hj2)

theorem cummaxFrom_of_chain (l : List ℚ) :
    ∀ m : ℚ, List.Chain (· ≤ ·) m l → cummaxFrom m l = l := by
  induction l with
  | nil => intro m _; rfl
  | cons x xs ih =>
    intro m hc
    rcases List.chain_cons.mp hc with ⟨hmx, hxs⟩
    simp [cummaxFrom, max_eq_right hmx, ih x hxs]

theorem cummax_of_chain (l : List ℚ) (h : l.Chain' (· ≤ ·)) : cummax l = l := by
  cases l with
  | nil => rfl
  | cons x xs =>
    have hc : List.Chain (· ≤ ·) x xs := h
    simp [cummax, cummaxFrom_of_chain xs x hc]

theorem zipWith_sub_self (l : List ℚ) :
    List.zipWith (fun m c => m - c) l l = l.map (fun _ => (0 : ℚ)) := by
  induction l with
  | nil => rfl
  | cons x xs ih => simp [ih]

theorem foldl_max_map_zero (l : List ℚ) :
    List.foldl max (0 : ℚ) (l.map (fun _ => (0 : ℚ))) = 0 := by
  induction l with
  | nil => rfl
  | cons x xs ih => simpa using ih

theorem maxList_map_zero (l : List ℚ) : maxList (l.map (fun _ => (0 : ℚ))) = 0 := by
  cases l with
  | nil => rfl
  | cons x xs => exact foldl_max_map_zero xs

theorem calculate_max_drawdown_eq (l : List ℚ) (h : l ≠ []) :
    Backtester.calculate_max_drawdown l
      = maxList (List.zipWith (fun m c => m - c) (cummax l) l) := by
  cases l with
  | nil => exact absurd rfl h
  | cons x xs => rfl

theorem drawdown_ge (l : List ℚ) (i j : ℕ) (hij : i ≤ j) (hj : j < l.length) :
    l.getD i 0 - l.getD j 0 ≤ Backtester.calculate_max_drawdown l := by
  cases l with
  | nil => simp at hj
  | cons x xs =>
    have h1 : (x :: xs).getD i 0 ≤ (cummax (x :: xs)).getD j 0 :=
      cummax_getD_ge (x :: xs) i j hij hj
    have hz : (List.zipWith (fun m c => m - c) (cummax (x :: xs)) (x :: xs)).getD j 0
        = (cummax (x :: xs)).getD j 0 - (x :: xs).getD j 0 :=
      zipWith_sub_getD _ _ j (by rw [cummax_length]; exact hj) hj
    have hmem : (List.zipWith (fun m c => m - c) (cummax (x :: xs)) (x :: xs)).getD j 0
        ∈ List.zipWith (fun m c => m - c) (cummax (x :: xs)) (x :: xs) := by
      apply getD_mem
      rw [List.length_zipWith, cummax_length, min_self]
      exact hj
    have hle := le_maxList_of_mem _ _ hmem
    have hdd : Backtester.calculate_max_drawdown (x :: xs)
        = maxList (List.zipWith (fun m c => m - c) (cummax (x :: xs)) (x :: xs)) := rfl
    rw [hdd]
    rw [hz] at hle
    linarith

theorem drawdown_nonneg (l : List ℚ) : 0 ≤ Backtester.calculate_max_drawdown l := by
  cases l with
  | nil => exact le_refl 0
  | cons x xs =>
    have h := drawdown_ge (x :: xs) 0 0 (le_refl 0) (by simp)
    simpa using h

theorem drawdown_zero_of_chain (l : List ℚ) (h : l.Chain' (· ≤ ·)) :
    Backtester.calculate_max_drawdown l = 0 := by
  cases l with
  | nil => rfl
  | cons x xs =>
    have hdd : Backtester.calculate_max_drawdown (x :: xs)
        = maxList (List.zipWith (fun m c => m - c) (cummax (x :: xs)) (x :: xs)) := rfl
    rw [hdd, cummax_of_chain _ h, zipWith_sub_self, maxList_map_zero]

theorem sampleVar_nonneg (l : List ℚ) : 0 ≤ sampleVar l := by
  unfold sampleVar
  rcases lt_trichotomy ((l.length : ℚ) - 1) 0 with h | h | h
  · have hl : l.length = 0 := by
      by_contra hne
      have h1 : 1 ≤ l.length := Nat.one_le_iff_ne_zero.mpr hne
      have h2 : (1 : ℚ) ≤ (l.length : ℚ) := by exact_mod_cast h1
      linarith
    have hnil : l = [] := List.length_eq_zero.mp hl
    subst hnil
    simp
  · rw [h, div_zero]
  · apply div_nonneg _ h.le
    apply List.sum_nonneg
    intro x hx
    rw [List.mem_map] at hx
    obtain ⟨y, _, rfl⟩ := hx
    positivity

/-! ## Claim C7 -/

/-- C7: on a non-empty input, `run_backtest` succeeds and the Sharpe field is
null exactly when there are fewer than 5 observations or the daily pnl series
over all rows has zero (sample) variance — equivalently zero standard
deviation; otherwise it carries the pair (mean pnl, sample variance of pnl),
whose real value `mean/√var · √252 = mean/std · √252` is the Sharpe ratio, with
a strictly positive variance so the value is a well-defined real number (never
0 or NaN substituted for the null case). -/
theorem run_backtest_sharpe (rs : List DecisionResult) (hne : rs ≠ []) :
    ∃ b, Backtester.run_backtest rs = some b ∧
      (b.metrics.sharpe = none ↔
        rs.length < 5 ∨ sampleVar (pnlList (sortedHist rs)) = 0) ∧
      (∀ m v, b.metrics.sharpe = some (m, v) →
        m = mean (pnlList (sortedHist rs)) ∧
        v = sampleVar (pnlList (sortedHist rs)) ∧ 0 < v ∧
        (m : ℝ) / Real.sqrt (v : ℝ) * Real.sqrt 252
          = (mean (pnlList (sortedHist rs)) : ℝ)
            / Real.sqrt ((sampleVar (pnlList (sortedHist rs)) : ℝ))
            * Real.sqrt 252) := by
  cases rs with
  | nil => exact absurd rfl hne
  | cons r0 rs' =>
    have hsh : (buildBacktest (sortedHist (r0 :: rs'))).metrics.sharpe
        = (if 5 ≤ (sortedHist (r0 :: rs')).length ∧
              0 < sampleVar (pnlList (sortedHist (r0 :: rs'))) then
            some (mean (pnlList (sortedHist (r0 :: rs'))),
                  sampleVar (pnlList (sortedHist (r0 :: rs'))))
          else none) := rfl
    refine ⟨buildBacktest (sortedHist (r0 :: rs')), rfl, ?_, ?_⟩
    · rw [hsh]
      by_cases h : 5 ≤ (sortedHist (r0 :: rs')).length ∧
          0 < sampleVar (pnlList (sortedHist (r0 :: rs')))
      · rw [if_pos h]
        simp only [reduceCtorEq, false_iff]
        push_neg
        constructor
        · rw [← sortedHist_length (r0 :: rs')]
          exact h.1
        · exact ne_of_gt h.2
      · rw [if_neg h]
        simp only [true_iff]
        rw [Classical.not_and_iff_or_not_not] at h
        rcases h with h | h
        · left
          rw [← sortedHist_length (r0 :: rs')]
          exact not_le.mp h
        · right
          exact le_antisymm (not_lt.mp h) (sampleVar_nonneg _)
    · intro m v hmv
      rw [hsh] at hmv
      by_cases h : 5 ≤ (sortedHist (r0 :: rs')).length ∧
          0 < sampleVar (pnlList (sortedHist (r0 :: rs')))
      · rw [if_pos h] at hmv
        simp only [Option.some.injEq, Prod.mk.injEq] at hmv
        obtain ⟨hm, hv⟩ := hmv
        subst hm
        subst hv
        exact ⟨rfl, rfl, h.2, rfl⟩
      · rw [if_neg h] at hmv
        exact absurd hmv (by simp)

/-- A minimal decision result for instantiating backtest theorems. -/
def mkDR (date : ℤ) (dec : String) (adj : ℚ) : DecisionResult :=
  { date := date
    europe_netback := mkNB 0 0
    asia_netback := mkNB 0 0
    delta_netback_raw_usd := 0
    delta_netback_adj_usd := adj
    decision := dec
    trade_ticket :=
      { timestamp := date, decision := dec, delta_netback_raw_usd := 0,
        delta_netback_adj_usd := adj, decision_buffer_usd := 0,
        hedge_legs := none, jkm_lots := none, ttf_lots := none,
        hedge_energy_mmbtu := none, netback_europe_usd := none,
        netback_asia_usd := none }
    basis_adjustment_pct := 0
    operational_risk_buffer_usd := 0
    decision_buffer_usd := 0 }

/-- C7, witness on a one-row backtest (fewer than 5 observations, so the
Sharpe field is null). -/
theorem run_backtest_sharpe_witness :
    ∃ b, Backtester.run_backtest [mkDR 0 "KEEP" 0] = some b ∧
      (b.metrics.sharpe = none ↔
        [mkDR 0 "KEEP" 0].length < 5 ∨
          sampleVar (pnlList (sortedHist [mkDR 0 "KEEP" 0])) = 0) ∧
      (∀ m v, b.metrics.sharpe = some (m, v) →
        m = mean (pnlList (sortedHist [mkDR 0 "KEEP" 0])) ∧
        v = sampleVar (pnlList (sortedHist [mkDR 0 "KEEP" 0])) ∧ 0 < v ∧
        (m : ℝ) / Real.sqrt (v : ℝ) * Real.sqrt 252
          = (mean (pnlList (sortedHist [mkDR 0 "KEEP" 0])) : ℝ)
            / Real.sqrt ((sampleVar (pnlList (sortedHist [mkDR 0 "KEEP" 0])) : ℝ))
            * Real.sqrt 252) :=
  run_backtest_sharpe [mkDR 0 "KEEP" 0] (by simp)

/-! ## Claim C9 -/

/-- C9: on a non-empty input, `run_backtest` succeeds and `max_drawdown_usd`
equals the maximum over the series of (running maximum of cumulative pnl minus
cumulative pnl), where the cumulative pnl is the cumulative sum seeded at 0 of
the per-row pnl (adjusted delta when triggered, else 0); it dominates every
peak-to-trough decline, is non-negative, and equals 0 whenever the cumulative
pnl is monotonically non-decreasing. -/
theorem run_backtest_max_drawdown (rs : List DecisionResult) (hne : rs ≠ []) :
    ∃ b, Backtester.run_backtest rs = some b ∧
      b.metrics.max_drawdown_usd
        = maxList (List.zipWith (fun m c => m - c)
            (cummax (cumsum (pnlList (sortedHist rs))))
            (cumsum (pnlList (sortedHist rs)))) ∧
      (∀ i j, i ≤ j → j < (cumsum (pnlList (sortedHist rs))).length →
        (cumsum (pnlList (sortedHist rs))).getD i 0
            - (cumsum (pnlList (sortedHist rs))).getD j 0
          ≤ b.metrics.max_drawdown_usd) ∧
      0 ≤ b.metrics.max_drawdown_usd ∧
      ((cumsum (pnlList (sortedHist rs))).Chain' (· ≤ ·) →
        b.metrics.max_drawdown_usd = 0) := by
  cases rs with
  | nil => exact absurd rfl hne
  | cons r0 rs' =>
    have hdd : (buildBacktest (sortedHist (r0 :: rs'))).metrics.max_drawdown_usd
        = Backtester.calculate_max_drawdown
            (cumsum (pnlList (sortedHist (r0 :: rs')))) := rfl
    have hcne : cumsum (pnlList (sortedHist (r0 :: rs'))) ≠ [] := by
      have hlen : (cumsum (pnlList (sortedHist (r0 :: rs')))).length
          = (r0 :: rs').length := by
        rw [cumsum_length, pnlList_length, sortedHist_length]
      intro hnil
      rw [hnil] at hlen
      simp at hlen
    refine ⟨buildBacktest (sortedHist (r0 :: rs')), rfl, ?_, ?_, ?_, ?_⟩
    · rw [hdd]
      exact calculate_max_drawdown_eq _ hcne
    · intro i j hij hj
      rw [hdd]
      exact drawdown_ge _ i j hij hj
    · rw [hdd]
      exact drawdown_nonneg _
    · intro hchain
      rw [hdd]
      exact drawdown_zero_of_chain _ hchain

/-- C9, witness on a two-row backtest whose equity curve rises to 100 then
falls to 60. -/
theorem run_backtest_max_drawdown_witness :
    ∃ b, Backtester.run_backtest [mkDR 0 "DIVERT" 100, mkDR 1 "DIVERT" (-40)]
        = some b ∧
      b.metrics.max_drawdown_usd
        = maxList (List.zipWith (fun m c => m - c)
            (cummax (cumsum (pnlList
              (sortedHist [mkDR 0 "DIVERT" 100, mkDR 1 "DIVERT" (-40)]))))
            (cumsum (pnlList
              (sortedHist [mkDR 0 "DIVERT" 100, mkDR 1 "DIVERT" (-40)])))) ∧
      (∀ i j, i ≤ j →
        j < (cumsum (pnlList
          (sortedHist [mkDR 0 "DIVERT" 100, mkDR 1 "DIVERT" (-40)]))).length →
        (cumsum (pnlList
            (sortedHist [mkDR 0 "DIVERT" 100, mkDR 1 "DIVERT" (-40)]))).getD i 0
          - (cumsum (pnlList
            (sortedHist [mkDR 0 "DIVERT" 100, mkDR 1 "DIVERT" (-40)]))).getD j 0
          ≤ b.metrics.max_drawdown_usd) ∧
      0 ≤ b.metrics.max_drawdown_usd ∧
      ((cumsum (pnlList
          (sortedHist [mkDR 0 "DIVERT" 100, mkDR 1 "DIVERT" (-40)]))).Chain'
        (· ≤ ·) → b.metrics.max_drawdown_usd = 0) :=
  run_backtest_max_drawdown [mkDR 0 "DIVERT" 100, mkDR 1 "DIVERT" (-40)] (by simp)

/-! ## Claim C10 -/

/-- Sorting the mapped history by date gives the same list for any two
permutations of the input, as long as the dates are pairwise distinct. -/
theorem sortedHist_perm_eq (l₁ l₂ : List DecisionResult) (hp : l₁.Perm l₂)
    (hd : l₁.Pairwise (fun a b => a.date ≠ b.date)) :
    sortedHist l₁ = sortedHist l₂ := by
  have hm : (l₁.map toHistRow).Perm (l₂.map toHistRow) := hp.map toHistRow
  have hperm : (sortedHist l₁).Perm (sortedHist l₂) :=
    (List.perm_insertionSort dateLe (l₁.map toHistRow)).trans
      (hm.trans (List.perm_insertionSort dateLe (l₂.map toHistRow)).symm)
  have hs₁ : (sortedHist l₁).Pairwise dateLe :=
    List.sorted_insertionSort dateLe (l₁.map toHistRow)
  have hs₂ : (sortedHist l₂).Pairwise dateLe :=
    List.sorted_insertionSort dateLe (l₂.map toHistRow)
  have hsymm : ∀ {x y : HistRow}, x.date ≠ y.date → y.date ≠ x.date :=
    fun h => h.symm
  have hdm : (l₁.map toHistRow).Pairwise (fun a b => a.date ≠ b.date) := by
    rw [List.pairwise_map]
    exact hd
  have hd₁ : (sortedHist l₁).Pairwise (fun a b => a.date ≠ b.date) :=
    ((List.perm_insertionSort dateLe (l₁.map toHistRow)).pairwise_iff hsymm).mpr hdm
  have hd₂ : (sortedHist l₂).Pairwise (fun a b => a.date ≠ b.date) :=
    (hperm.pairwise_iff hsymm).mp hd₁
  have hst₁ : (sortedHist l₁).Pairwise (fun a b => a.date < b.date) :=
    (hs₁.and hd₁).imp (fun h => lt_of_le_of_ne h.1 h.2)
  have hst₂ : (sortedHist l₂).Pairwise (fun a b => a.date < b.date) :=
    (hs₂.and hd₂).imp (fun h => lt_of_le_of_ne h.1 h.2)
  haveI : IsAntisymm HistRow (fun a b => a.date < b.date) :=
    ⟨fun a b h h2 => absurd (lt_trans h h2) (lt_irrefl _)⟩
  exact List.eq_of_perm_of_sorted hperm hst₁ hst₂

/-- C10: on a non-empty input with pairwise-distinct dates, `run_backtest`
returns identical metrics for every permutation of the input list — the
implementation sorts the rows by date before computing the equity curve,
drawdown and Sharpe field, so the caller-side chronological-ordering
requirement does not affect the returned metrics. -/
theorem run_backtest_perm_invariant (l₁ l₂ : List DecisionResult)
    (hp : l₁.Perm l₂) (hd : l₁.Pairwise (fun a b => a.date ≠ b.date))
    (hne : l₁ ≠ []) :
    (Backtester.run_backtest l₁).map (fun b => b.metrics)
      = (Backtester.run_backtest l₂).map (fun b => b.metrics) := by
  have hs := sortedHist_perm_eq l₁ l₂ hp hd
  cases l₁ with
  | nil => exact absurd rfl hne
  | cons a as =>
    cases l₂ with
    | nil =>
      have := hp.eq_nil
      simp at this
    | cons b bs =>
      show some ((buildBacktest (sortedHist (a :: as))).metrics)
        = some ((buildBacktest (sortedHist (b :: bs))).metrics)
      rw [hs]

/-- C10, witness on a two-row input and its transposition. -/
theorem run_backtest_perm_invariant_witness :
    (Backtester.run_backtest [mkDR 0 "KEEP" 0, mkDR 1 "DIVERT" 5]).map
        (fun b => b.metrics)
      = (Backtester.run_backtest [mkDR 1 "DIVERT" 5, mkDR 0 "KEEP" 0]).map
        (fun b => b.metrics) :=
  run_backtest_perm_invariant
    [mkDR 0 "KEEP" 0, mkDR 1 "DIVERT" 5]
    [mkDR 1 "DIVERT" 5, mkDR 0 "KEEP" 0]
    (List.Perm.swap (mkDR 1 "DIVERT" 5) (mkDR 0 "KEEP" 0) [])
    (by simp [List.pairwise_cons, mkDR])
    (by simp)
